import Mathlib

/-!
Verification of the padbound MIDI-controller library (shallow embedding).

The definitions below are translated from the Python sources under
`src/padbound/`:
  * `controls.py`   — control types, capabilities, state snapshots, the
    per-type state transitions (`ToggleControl`, `MomentaryControl`,
    `ContinuousControl`) and discovery tracking (`Control.update_from_midi`);
  * `state.py`      — `ControllerState` (registry, `update_state`,
    `set_control_state`, bounded history);
  * `config.py`     — `ControlConfigResolver.resolve_config`;
  * `controller.py` — `Controller.set_state`, `Controller.can_set_state`,
    `Controller._on_midi_message`, `Controller._create_control`;
  * `callbacks.py`  — `CallbackManager.on_control_change` / `_safe_call`;
  * `midi_io.py`    — the bounded input queue of `MIDIInterface`;
  * `utils.py`      — `RGBColor.from_string`;
  * `plugin.py` / `plugins/akai_apc_mini_mk2.py` — the plugin feedback
    translation interface that the orchestrator invokes.

Modelling conventions:
  * Python `datetime.now()` values are modelled as an explicit `Nat`
    timestamp threaded into every state transition.
  * Python `float` is modelled as `ℚ` (the normalisation arithmetic of
    `ContinuousControl` is exact at the granularity the claims are stated).
  * Python dictionaries are modelled as functions into `Option` or as
    association lists, as noted at each definition.
  * Exceptions are modelled with `Except`; a caught-and-logged exception is
    modelled by the handler's continuation, exactly at the `try/except`
    blocks of the source.
-/


namespace Padbound

/-- `ControlType` from `controls.py` (`TOGGLE | MOMENTARY | CONTINUOUS`). -/
inductive ControlType where
  | toggle
  | momentary
  | continuous
deriving DecidableEq, Repr

/-- `LEDAnimationType` from `controls.py` (`SOLID | BLINK | PULSE`). -/
inductive LEDAnimationType where
  | solid
  | blink
  | pulse
deriving DecidableEq, Repr

/-- `LEDMode` from `controls.py`: animation type plus optional frequency. -/
structure LEDMode where
  animation_type : LEDAnimationType := .solid
  frequency : Option Int := none
deriving DecidableEq, Repr

/-- `ControlCapabilities` from `controls.py` (per-control capability flags,
with the source's defaults). `color_mode` is kept as a string as in the
source literal type. -/
structure ControlCapabilities where
  supports_feedback : Bool := false
  requires_feedback : Bool := false
  supports_led : Bool := false
  supports_color : Bool := false
  color_mode : String := "none"
  color_palette : Option (List String) := none
  supported_led_modes : Option (List LEDMode) := none
  supports_value_setting : Bool := false
  requires_discovery : Bool := true
deriving DecidableEq, Repr

/-- `ControlTypeModes` from `controls.py`. -/
structure ControlTypeModes where
  supported_types : List ControlType
  default_type : ControlType
  requires_hardware_sync : Bool := false
deriving DecidableEq, Repr

/-- `ControlDefinition` from `controls.py` (immutable control metadata,
with the source's defaults). -/
structure ControlDefinition where
  control_id : String
  control_type : ControlType
  category : Option String := none
  capabilities : ControlCapabilities
  bank_id : Option String := none
  display_name : Option String := none
  min_value : Int := 0
  max_value : Int := 127
  type_modes : Option ControlTypeModes := none
  signal_types : List String := ["default"]
  on_color : Option String := none
  off_color : Option String := none
  on_led_mode : Option LEDMode := none
  off_led_mode : Option LEDMode := none
deriving DecidableEq, Repr

/-- `ControlState` from `controls.py`: the frozen per-control snapshot.
`timestamp` is a `Nat` clock value; `normalized_value` is modelled in `ℚ`. -/
structure ControlState where
  control_id : String
  timestamp : Nat := 0
  is_discovered : Bool := false
  first_discovered_at : Option Nat := none
  value : Option Int := none
  normalized_value : Option ℚ := none
  is_on : Option Bool := none
  color : Option String := none
  led_mode : Option LEDMode := none
deriving DecidableEq, Repr

/-- Python truthiness of an `Optional[bool]`: `None` is falsy, so
`not self._state.is_on` negates `truthy is_on`. -/
def truthy : Option Bool → Bool
  | none => false
  | some b => b

/-- `ToggleControl._compute_new_state` (`controls.py` lines 313–343):
`new_is_on = not is_on if value > 0 else is_on`; colour and LED mode are
derived from the new state via the definition's on/off fields. -/
def toggleComputeNewState (defn : ControlDefinition) (st : ControlState)
    (now : Nat) (value : Int) : ControlState :=
  let new_is_on : Option Bool :=
    if value > 0 then some (! truthy st.is_on) else st.is_on
  let color := if truthy new_is_on then defn.on_color else defn.off_color
  let led_mode := if truthy new_is_on then defn.on_led_mode else defn.off_led_mode
  { control_id := defn.control_id
    timestamp := now
    is_on := new_is_on
    value := some value
    color := color
    led_mode := led_mode }

/-- `MomentaryControl._compute_new_state` (`controls.py` lines 365–390):
`is_on` follows the press (`value > 0`). -/
def momentaryComputeNewState (defn : ControlDefinition) (_st : ControlState)
    (now : Nat) (value : Int) : ControlState :=
  let is_triggered := value > 0
  let color := if is_triggered then defn.on_color else defn.off_color
  let led_mode := if is_triggered then defn.on_led_mode else defn.off_led_mode
  { control_id := defn.control_id
    timestamp := now
    value := some value
    is_on := some is_triggered
    color := color
    led_mode := led_mode }

/-- Python `max(0.0, min(1.0, x))` used to clamp the normalised value. -/
def clamp01 (x : ℚ) : ℚ := max 0 (min 1 x)

/-- `ContinuousControl._compute_new_state` (`controls.py` lines 401–421):
`normalized = (value - min) / range` when `range > 0` else `0.0`, clamped
to `[0, 1]`. -/
def continuousComputeNewState (defn : ControlDefinition) (_st : ControlState)
    (now : Nat) (value : Int) : ControlState :=
  let value_range : Int := defn.max_value - defn.min_value
  let normalized : ℚ :=
    if value_range > 0 then ((value : ℚ) - (defn.min_value : ℚ)) / (value_range : ℚ)
    else 0
  let normalized := clamp01 normalized
  { control_id := defn.control_id
    timestamp := now
    value := some value
    normalized_value := some normalized }

/-- A live control: its (resolved) definition plus current state, as held
by the `Control` class of `controls.py`. The subclass is determined by
`definition.control_type`, mirroring `Controller._create_control`. -/
structure Control where
  definition : ControlDefinition
  state : ControlState
deriving DecidableEq, Repr

/-- Dispatch of the abstract `_compute_new_state` to the subclass
implementation selected by the control's type. -/
def computeNewState (c : Control) (now : Nat) (value : Int) : ControlState :=
  match c.definition.control_type with
  | .toggle => toggleComputeNewState c.definition c.state now value
  | .momentary => momentaryComputeNewState c.definition c.state now value
  | .continuous => continuousComputeNewState c.definition c.state now value

/-- `Control.update_from_midi` (`controls.py` lines 255–278): capture
`first_discovered_at` (now, if not yet discovered), compute the new state,
then overwrite `is_discovered := true` and `first_discovered_at` on it
(the `model_copy(update=...)` call). Returns the updated control and the
snapshot it now holds. -/
def updateFromMidi (c : Control) (now : Nat) (value : Int) :
    Control × ControlState :=
  let first_discovered_at :=
    if ! c.state.is_discovered then some now else c.state.first_discovered_at
  let new_state := computeNewState c now value
  let new_state :=
    { new_state with is_discovered := true
                     first_discovered_at := first_discovered_at }
  ({ c with state := new_state }, new_state)

end Padbound

namespace Padbound

/-! ### Controller state store (`state.py`) -/

/-- The bounded history ring of `ControllerState` (`state.py` line 105):
`deque(maxlen=1000)` — appending to a full deque discards the oldest
entry. -/
def historyAppend (h : List (String × ControlState)) (e : String × ControlState) :
    List (String × ControlState) :=
  let h' := h ++ [e]
  if h'.length > 1000 then h'.drop (h'.length - 1000) else h'

/-- `ControllerState` from `state.py`: the registry of controls (Python
dict, modelled as a function into `Option`) plus the bounded history.
Bank tracking and the capability helpers are not needed by the claims
settled here. -/
structure ControllerStore where
  controls : String → Option Control
  history : List (String × ControlState)

/-- `ControllerState.register_control` (`state.py` lines 112–120). -/
def registerControl (s : ControllerStore) (c : Control) : ControllerStore :=
  { s with controls := fun i =>
      if i = c.definition.control_id then some c else s.controls i }

/-- `ControllerState.update_state` (`state.py` lines 135–161): look up the
control (raising `ValueError` if unknown), run `update_from_midi`, append
the new snapshot to the history. -/
def updateState (s : ControllerStore) (control_id : String) (now : Nat)
    (value : Int) : Except String (ControllerStore × ControlState) :=
  match s.controls control_id with
  | none => .error "ValueError: Unknown control"
  | some c =>
    let (c', new_state) := updateFromMidi c now value
    .ok ({ controls := fun i => if i = control_id then some c' else s.controls i
           history := historyAppend s.history (control_id, new_state) },
         new_state)

/-- `ControllerState.set_control_state` (`state.py` lines 163–195): look up
the control (raising `ValueError` if unknown), overwrite its internal
state with the given snapshot verbatim (`control._state = new_state`),
append the snapshot to the history. -/
def setControlState (s : ControllerStore) (control_id : String)
    (new_state : ControlState) : Except String (ControllerStore × ControlState) :=
  match s.controls control_id with
  | none => .error "ValueError: Unknown control"
  | some c =>
    .ok ({ controls := fun i =>
             if i = control_id then some { c with state := new_state }
             else s.controls i
           history := historyAppend s.history (control_id, new_state) },
         new_state)

/-- A sequence of `update_state` calls on one control, each with a
timestamp and a MIDI value (later calls see the store the earlier ones
produced). -/
def runUpdates (s : ControllerStore) (control_id : String) :
    List (Nat × Int) → Except String ControllerStore
  | [] => .ok s
  | (now, v) :: rest => do
    let (s', _) ← updateState s control_id now v
    runUpdates s' control_id rest

end Padbound

namespace Padbound

/-! ### Config resolver (`config.py`) -/

/-- `ControlConfig` from `config.py`: per-control user configuration.
`led_mode` is the raw string (`"solid" | "pulse" | "blink"`), as in the
source model. -/
structure ControlConfig where
  type : ControlType
  color : Option String := none
  off_color : Option String := none
  led_mode : Option String := none
deriving DecidableEq, Repr

/-- `BankConfig` from `config.py` (controls keyed by id or glob pattern,
in insertion order, modelled as an association list). -/
structure BankConfig where
  controls : List (String × ControlConfig)
  toggle_mode : Option Bool := none
deriving DecidableEq, Repr

/-- `ControllerConfig` from `config.py`. The pydantic validator enforces
that exactly one of `banks` / `controls` is given, so the two modes are a
sum type. -/
inductive ControllerConfig where
  | banks (banks : List (String × BankConfig))
  | flat (controls : List (String × ControlConfig))
deriving DecidableEq, Repr

/-- Glob matching of the resolver's wildcard keys: `'*'` becomes `.*` in
the compiled regex, every other key character is literal (key characters
are restricted to alphanumerics, `_` and `*` by `BankConfig`'s validator,
so no other regex metacharacter can occur; control ids contain no newline,
so `.*` behaves as "any characters"). -/
def globMatch : List Char → List Char → Bool
  | [], [] => true
  | [], _ :: _ => false
  | '*' :: ps, [] => globMatch ps []
  | '*' :: ps, c :: cs => globMatch ps (c :: cs) || globMatch ('*' :: ps) cs
  | p :: ps, [] => false && (p = p) && (ps = ps)
  | p :: ps, c :: cs => p = c && globMatch ps cs
termination_by ps cs => ps.length + cs.length

/-- `^pattern$` full-match of a glob key against a candidate id
(`re.compile(f'^{regex_pattern}$')` plus `pattern.match`). -/
def patternMatch (pattern candidate : String) : Bool :=
  globMatch pattern.toList candidate.toList

/-- `ControlConfigResolver._compile_config` (`config.py` lines 134–153):
split the configured keys into exact matches and wildcard patterns,
keeping insertion order for the wildcard list. -/
def compileConfig (controls : List (String × ControlConfig)) :
    List (String × ControlConfig) × List (String × ControlConfig) :=
  (controls.filter (fun p => ! p.1.toList.contains '*'),
   controls.filter (fun p => p.1.toList.contains '*'))

/-- `ControlConfigResolver._parse_control_id` (`config.py` lines 232–247):
`"pad_1@bank_1" → ("pad_1", some "bank_1")`, splitting at the first `@`
(Python `split('@', 1)`). -/
def parseControlId (control_id : String) : String × Option String :=
  let cs := control_id.toList
  if cs.contains '@' then
    (String.mk (cs.takeWhile (· ≠ '@')),
     some (String.mk ((cs.dropWhile (· ≠ '@')).drop 1)))
  else (control_id, none)

/-- `ControlConfigResolver._validate_supported` (`config.py` lines
249–284): without `type_modes` only the definition's own type is allowed;
with `type_modes` the requested type must be one of `supported_types`.
Violations raise `CapabilityError`. -/
def validateSupported (requested_type : ControlType)
    (definition : ControlDefinition) : Except String Unit :=
  match definition.type_modes with
  | none =>
    if requested_type ≠ definition.control_type then
      .error "CapabilityError: control has fixed hardware behavior"
    else .ok ()
  | some modes =>
    if ! modes.supported_types.contains requested_type then
      .error "CapabilityError: type not supported"
    else .ok ()

/-- First wildcard entry (in insertion order) matching the candidate. -/
def firstWildcardMatch (patterns : List (String × ControlConfig))
    (candidate : String) : Option ControlConfig :=
  match patterns.find? (fun p => patternMatch p.1 candidate) with
  | some p => some p.2
  | none => none

/-- `ControlConfigResolver.resolve_config` (`config.py` lines 155–230),
a pure function of the user config, the control id and the definition.
Bank-aware lookup (exact on the base id, else first wildcard), then the
flat fallback (exact on full id then base id, wildcard on full id then
base id), then the plugin default. On a config hit the requested type is
validated. Note: the source returns a **four**-component tuple
`(resolved_type, on_color, off_color, led_mode)`. -/
def resolveConfig (cfg : Option ControllerConfig) (control_id : String)
    (definition : ControlDefinition) :
    Except String (ControlType × Option String × Option String × Option String) := do
  let (control_base_id, bank_id) := parseControlId control_id
  -- bank-aware resolution (resolver precompiled per-bank tables)
  let bankHit : Option ControlConfig :=
    match cfg, bank_id with
    | some (.banks bs), some b =>
      match bs.find? (fun p => p.1 = b) with
      | some (_, bank_config) =>
        let (exact, wild) := compileConfig bank_config.controls
        match exact.find? (fun p => p.1 = control_base_id) with
        | some p => some p.2
        | none => firstWildcardMatch wild control_base_id
      | none => none
    | _, _ => none
  -- flat fallback
  let hit : Option ControlConfig :=
    match bankHit, cfg with
    | none, some (.flat controls) =>
      let (exact, wild) := compileConfig controls
      match (exact.find? (fun p => p.1 = control_id)).orElse
            (fun _ => exact.find? (fun p => p.1 = control_base_id)) with
      | some p => some p.2
      | none =>
        (firstWildcardMatch wild control_id).orElse
          (fun _ => firstWildcardMatch wild control_base_id)
    | _, _ => bankHit
  match hit with
  | some control_config => do
    validateSupported control_config.type definition
    return (control_config.type, control_config.color,
            control_config.off_color, control_config.led_mode)
  | none =>
    -- plugin default
    return (definition.control_type, none, none, none)

/-- A component of the Python tuple returned by `resolve_config`, for
modelling the dynamic tuple-unpacking in `Controller._create_control`. -/
inductive PyVal where
  | ofType (t : ControlType)
  | ofStr (s : Option String)
deriving DecidableEq, Repr

/-- The value `resolve_config` returns, reified as the Python runtime
tuple (a heterogeneous sequence). -/
def resolveConfigTuple (cfg : Option ControllerConfig) (control_id : String)
    (definition : ControlDefinition) : Except String (List PyVal) :=
  (resolveConfig cfg control_id definition).map
    (fun r => [.ofType r.1, .ofStr r.2.1, .ofStr r.2.2.1, .ofStr r.2.2.2])

/-- The five-name tuple unpacking at `controller.py` line 775
(`actual_type, on_color, off_color, on_led_mode, off_led_mode = ...`):
Python raises `ValueError` unless the right-hand tuple has exactly five
components. -/
def unpackFive (l : List PyVal) :
    Except String (PyVal × PyVal × PyVal × PyVal × PyVal) :=
  match l with
  | [a, b, c, d, e] => .ok (a, b, c, d, e)
  | _ => .error "ValueError: not enough values to unpack (expected 5, got 4)"

/-- `Controller._create_control`'s first step: call `resolve_config` and
unpack its result into five names. -/
def createControlResolveStep (cfg : Option ControllerConfig)
    (control_id : String) (definition : ControlDefinition) :
    Except String (PyVal × PyVal × PyVal × PyVal × PyVal) :=
  (resolveConfigTuple cfg control_id definition).bind unpackFive

end Padbound

namespace Padbound

/-! ### MIDI messages, feedback payloads, and the plugin feedback call
(`plugin.py`, `controller.py`) -/

/-- A `mido.Message`, restricted to the kinds the modelled paths build. -/
inductive MidiMsg where
  | noteOn (channel note velocity : Int)
  | controlChange (channel control value : Int)
  | other (tag : Nat)
deriving DecidableEq, Repr

/-- A Python state dictionary as passed to `translate_feedback` (the
`kwargs` of `Controller.set_state` or the `state_dict` built in
`Controller._on_midi_message`). The outer `Option` is key presence, the
inner `Option` is the (possibly `None`) value. -/
structure StateDict where
  is_on : Option (Option Bool) := none
  value : Option (Option Int) := none
  color : Option (Option String) := none
  normalized_value : Option (Option ℚ) := none
  led_mode : Option (Option LEDMode) := none
  definition_led_mode : Option (Option LEDMode) := none
deriving DecidableEq, Repr

/-- `state_dict.get("is_on", False)` followed by Python truthiness. -/
def sdIsOnTruthy (sd : StateDict) : Bool :=
  match sd.is_on with
  | some v => truthy v
  | none => false

/-- `MIDIMessageType` from `plugin.py`, restricted to the members the
default feedback builder handles. -/
inductive MIDIMessageType where
  | note_on
  | note_off
  | control_change
  | program_change
deriving DecidableEq, Repr

/-- `FeedbackMapping` from `plugin.py` (lines 187–207). -/
structure FeedbackMapping where
  control_id : String
  message_type : MIDIMessageType
  channel : Int := 0
  note : Option Int := none
  control : Option Int := none
  value_source : String := "value"
deriving DecidableEq, Repr

/-- `ControllerPlugin._build_feedback_message` (`plugin.py` lines
604–647): resolve the feedback value from the state dict, then build a
`note_on` or `control_change` message; any construction error (e.g. a
`None` or out-of-range data byte rejected by `mido`) is caught and yields
`None`. -/
def buildFeedbackMessage (mapping : FeedbackMapping) (sd : StateDict) :
    Option MidiMsg :=
  let value : Option Int :=
    if mapping.value_source = "is_on" then
      some (if sdIsOnTruthy sd then 127 else 0)
    else if mapping.value_source = "color" then
      some 0
    else
      match sd.value with
      | some (some v) => if 0 ≤ v ∧ v ≤ 127 then some v else none
      | some none => none
      | none => some 0
  match value with
  | none => none
  | some v =>
    match mapping.message_type with
    | .note_on => some (.noteOn mapping.channel (mapping.note.getD 0) v)
    | .control_change => some (.controlChange mapping.channel (mapping.control.getD 0) v)
    | _ => none

/-- `ControllerPlugin.translate_feedback` (`plugin.py` lines 535–558), the
default mapping-table implementation: one message per feedback mapping
for this control, skipping mappings whose build failed. -/
def defaultTranslateFeedback (mappings : List FeedbackMapping)
    (control_id : String) (sd : StateDict) : List MidiMsg :=
  (mappings.filter (fun m => m.control_id = control_id)).filterMap
    (fun m => buildFeedbackMessage m sd)

/-- The plugin's `translate_feedback` method as a Python callable. The
base class (`plugin.py` line 535) takes the two positional parameters
`(control_id, state_dict)`; several plugins override it with the three
required positional parameters `(control_id, state, definition)`
(e.g. `akai_apc_mini_mk2.py` lines 1078–1083). -/
inductive PluginTranslateFeedback where
  | twoParams (f : String → StateDict → List MidiMsg)
  | threeParams (f : String → ControlState → ControlDefinition → List MidiMsg)

/-- A Python call `plugin.translate_feedback(control_id, state_dict)` with
exactly two positional arguments (`controller.py` lines 471 and 961): it
raises `TypeError` when the method requires three parameters. -/
def callTranslateFeedbackTwoArgs (tf : PluginTranslateFeedback)
    (control_id : String) (sd : StateDict) : Except String (List MidiMsg) :=
  match tf with
  | .twoParams f => .ok (f control_id sd)
  | .threeParams _ =>
    .error "TypeError: translate_feedback() missing 1 required positional argument: definition"

/-- `ControllerState.validate_color` (`state.py` lines 375–400): false for
an unknown control or one without colour support; any colour is accepted
when no palette is declared, otherwise the colour must be a palette
member (`None` is never a member). -/
def validateColor (s : ControllerStore) (control_id : String)
    (color : Option String) : Bool :=
  match s.controls control_id with
  | none => false
  | some c =>
    if ! c.definition.capabilities.supports_color then false
    else
      match c.definition.capabilities.color_palette with
      | none => true
      | some palette =>
        match color with
        | some col => palette.contains col
        | none => false

/-- The connected `Controller` as seen by `set_state` / `can_set_state`:
strict-mode flag, the state store, and the plugin's feedback callable. -/
structure ControllerModel where
  connected : Bool
  strict_mode : Bool
  store : ControllerStore
  translate_feedback : PluginTranslateFeedback

/-- `Controller.set_state` (`controller.py` lines 410–477): ensure
connected, look up the control, gate on capabilities (strict mode raises
`CapabilityError`, permissive mode logs and returns having sent nothing),
fill in `definition_led_mode`, then call
`plugin.translate_feedback(control_id, kwargs)` with two positional
arguments and send every returned message. Returns the messages sent. -/
def setState (ctl : ControllerModel) (control_id : String)
    (kwargs : StateDict) : Except String (List MidiMsg) := do
  if ! ctl.connected then
    throw "RuntimeError: Controller not connected"
  match ctl.store.controls control_id with
  | none => throw "ValueError: Unknown control"
  | some control =>
    let capabilities := control.definition.capabilities
    if ! capabilities.supports_feedback then
      if ctl.strict_mode then throw "CapabilityError: does not support feedback"
      else return []
    else if kwargs.value.isSome ∧ ! capabilities.supports_value_setting then
      if ctl.strict_mode then throw "CapabilityError: does not support value setting"
      else return []
    else if kwargs.color.isSome ∧ ! capabilities.supports_color then
      if ctl.strict_mode then throw "CapabilityError: does not support color"
      else return []
    else if kwargs.color.isSome ∧
        ! validateColor ctl.store control_id (kwargs.color.getD none) then
      if ctl.strict_mode then throw "CapabilityError: color not in palette"
      else return []
    else
      let dlm :=
        if sdIsOnTruthy kwargs then control.definition.on_led_mode
        else control.definition.off_led_mode
      let kwargs :=
        if kwargs.definition_led_mode.isSome then kwargs
        else { kwargs with definition_led_mode := some dlm }
      let messages ← callTranslateFeedbackTwoArgs ctl.translate_feedback
        control_id kwargs
      return messages

/-- `Controller.can_set_state` (`controller.py` lines 479–518): the same
capability checks as `set_state`, returning a boolean and never raising. -/
def canSetState (ctl : ControllerModel) (control_id : String)
    (kwargs : StateDict) : Bool :=
  if ! ctl.connected then false
  else
    match ctl.store.controls control_id with
    | none => false
    | some control =>
      let capabilities := control.definition.capabilities
      if ! capabilities.supports_feedback then false
      else if kwargs.value.isSome ∧ ! capabilities.supports_value_setting then false
      else if kwargs.color.isSome ∧ ! capabilities.supports_color then false
      else if kwargs.color.isSome ∧
          ! validateColor ctl.store control_id (kwargs.color.getD none) then false
      else true

/-- The RGB-pad control definition of the AKAI APC mini MK2 plugin
(`akai_apc_mini_mk2.py` lines 726–751), instantiated at `pad_0_0`. -/
def apcPadDefinition : ControlDefinition :=
  { control_id := "pad_0_0"
    control_type := .toggle
    category := some "pad"
    type_modes := some
      { supported_types := [.toggle, .momentary]
        default_type := .toggle
        requires_hardware_sync := false }
    capabilities :=
      { supports_feedback := true
        requires_feedback := true
        supports_led := true
        supports_color := true
        color_mode := "rgb"
        supported_led_modes := some
          [{ animation_type := .solid }, { animation_type := .pulse },
           { animation_type := .blink }]
        requires_discovery := false }
    display_name := some "Pad 0,0" }

/-- A connected controller holding the APC `pad_0_0` control, with the
plugin's three-parameter `translate_feedback` override (body `f`). -/
def apcControllerWith (strict : Bool)
    (f : String → ControlState → ControlDefinition → List MidiMsg) :
    ControllerModel :=
  { connected := true
    strict_mode := strict
    store := registerControl { controls := fun _ => none, history := [] }
      { definition := apcPadDefinition
        state := { control_id := "pad_0_0", is_on := some false } }
    translate_feedback := .threeParams f }

end Padbound

namespace Padbound

/-! ### Inbound pipeline (`Controller._on_midi_message`) -/

/-- The plugin hooks the inbound pipeline invokes (`_on_midi_message` is
parametric in the connected plugin). `compute_control_state` has the
shape the orchestrator expects: an optional plugin-computed snapshot plus
a `trigger_callback` flag. -/
structure PluginHooks where
  translate_bank_switch : MidiMsg → Option String
  translate_input : MidiMsg → Option (String × Int × String)
  compute_control_state :
    String → Int → String → ControlState → ControlDefinition →
      Option ControlState × Bool
  translate_feedback : PluginTranslateFeedback

/-- The `state_dict` built for auto-feedback (`controller.py` lines
948–960): every key present, `definition_led_mode` chosen by the Python
truthiness of `new_state.is_on`. -/
def autoFeedbackDict (defn : ControlDefinition) (new_state : ControlState) :
    StateDict :=
  { is_on := some new_state.is_on
    value := some new_state.value
    color := some new_state.color
    normalized_value := some new_state.normalized_value
    led_mode := some new_state.led_mode
    definition_led_mode :=
      some (if truthy new_state.is_on then defn.on_led_mode
            else defn.off_led_mode) }

/-- Result of one `_on_midi_message` call: the updated store, the detected
bank switch (if any), the accepted event as `(control_id, old state, new
state)`, the callback dispatch (if `trigger_callback`), the outbound
feedback messages sent, and an escaped exception (the `try` block catches
only `ValueError`). -/
structure PipelineResult where
  store : ControllerStore
  bank_switch : Option String := none
  accepted : Option (String × ControlState × ControlState) := none
  callback_fired : Option (String × ControlState) := none
  outbound : List MidiMsg := []
  error : Option String := none

/-- `Controller._on_midi_message` (`controller.py` lines 882–967):
bank-switch check first (a non-empty bank id stops processing), then
`translate_input` (a miss drops the message), control lookup (a miss
drops the message), then the state update — the plugin snapshot through
`set_control_state` if `compute_control_state` returned one, else the
default type transition through `update_state` — the callback dispatch
when `trigger_callback`, and, whenever
`capabilities.requires_feedback`, the auto-feedback call
`translate_feedback(control_id, state_dict)` (two positional arguments)
with every returned message sent. Sending does not depend on whether the
accepted event changed the state. -/
def onMidiMessage (hooks : PluginHooks) (s : ControllerStore) (now : Nat)
    (msg : MidiMsg) : PipelineResult :=
  match hooks.translate_bank_switch msg with
  | some bank_id =>
    if bank_id ≠ "" then { store := s, bank_switch := some bank_id }
    else processInput hooks s now msg
  | none => processInput hooks s now msg
where
  processInput (hooks : PluginHooks) (s : ControllerStore) (now : Nat)
      (msg : MidiMsg) : PipelineResult :=
    match hooks.translate_input msg with
    | none => { store := s }
    | some (control_id, value, signal_type) =>
      match s.controls control_id with
      | none => { store := s }
      | some control =>
        let (plugin_state, trigger_callback) :=
          hooks.compute_control_state control_id value signal_type
            control.state control.definition
        let stepped : ControllerStore × ControlState :=
          match plugin_state with
          | some ps =>
            match setControlState s control_id ps with
            | .ok r => r
            | .error _ => (s, ps)  -- unreachable: the control was found above
          | none =>
            match updateState s control_id now value with
            | .ok r => r
            | .error _ => (s, control.state)  -- unreachable: the control was found above
        let s' := stepped.1
        let new_state := stepped.2
        let callback_fired :=
          if trigger_callback then some (control_id, new_state) else none
        if control.definition.capabilities.requires_feedback then
          match callTranslateFeedbackTwoArgs hooks.translate_feedback
              control_id (autoFeedbackDict control.definition new_state) with
          | .ok messages =>
            { store := s', accepted := some (control_id, control.state, new_state)
              callback_fired := callback_fired, outbound := messages }
          | .error e =>
            { store := s', accepted := some (control_id, control.state, new_state)
              callback_fired := callback_fired, outbound := [], error := some e }
        else
          { store := s', accepted := some (control_id, control.state, new_state)
            callback_fired := callback_fired, outbound := [] }

/-- A run of the inbound pipeline over a timestamped message list,
accumulating accepted events and outbound messages (an exception escaping
one message's processing is caught by `process_pending_messages`, so the
run continues). -/
structure RunAcc where
  store : ControllerStore
  events : List (String × ControlState × ControlState) := []
  outbound : List MidiMsg := []

def runInbound (hooks : PluginHooks) : RunAcc → List (Nat × MidiMsg) → RunAcc
  | acc, [] => acc
  | acc, (now, msg) :: rest =>
    let r := onMidiMessage hooks acc.store now msg
    runInbound hooks
      { store := r.store
        events := acc.events ++ (match r.accepted with
          | some e => [e]
          | none => [])
        outbound := acc.outbound ++ r.outbound } rest

/-- Number of accepted events that changed `is_on` or `color`. -/
def changedCount (events : List (String × ControlState × ControlState)) : Nat :=
  events.countP
    (fun e => decide (e.2.1.is_on ≠ e.2.2.is_on ∨ e.2.1.color ≠ e.2.2.color))

end Padbound

namespace Padbound

/-! ### The concrete C2 pipeline scenario (control, plugin hooks, store) -/

/-- The concrete single-pad setup refuting C2 as stated: a toggle pad
`pad_1` with `requires_feedback = true`, fed through the default
mapping-table `translate_feedback` of `plugin.py` with one `is_on`-driven
`note_on` feedback mapping. -/
def c2PadDefinition : ControlDefinition :=
  { control_id := "pad_1"
    control_type := .toggle
    category := some "pad"
    capabilities :=
      { supports_feedback := true
        requires_feedback := true
        supports_led := true
        supports_color := true }
    on_color := some "red"
    off_color := some "off" }

def c2Hooks : PluginHooks :=
  { translate_bank_switch := fun _ => none
    translate_input := fun msg =>
      match msg with
      | .noteOn 0 36 v => some ("pad_1", v, "note")
      | _ => none
    compute_control_state := fun _ _ _ _ _ => (none, true)
    translate_feedback := .twoParams (defaultTranslateFeedback
      [{ control_id := "pad_1", message_type := .note_on, channel := 0,
         note := some 36, value_source := "is_on" }]) }

def c2Store : ControllerStore :=
  registerControl { controls := fun _ => none, history := [] }
    { definition := c2PadDefinition
      state := { control_id := "pad_1", is_on := some false,
                 color := some "off" } }

end Padbound

namespace Padbound

/-! ### Callback dispatcher (`callbacks.py`) -/

/-- A registered user callback, identified by `cbId`; `raises` says whether
invoking it throws an exception. -/
structure RegisteredCallback where
  cbId : Nat
  raises : Bool := false
deriving DecidableEq, Repr

/-- A registration entry: the callback plus its optional signal-type
filter (`None` fires for all signals). -/
abbrev CallbackEntry := RegisteredCallback × Option String

/-- `CallbackManager`'s four control-change tiers. Python's
`defaultdict(list)` tables are modelled as functions into lists; each list
is kept in registration order because registration appends. -/
structure CallbackManager where
  global_callbacks : List CallbackEntry := []
  control_callbacks : String → List CallbackEntry := fun _ => []
  type_callbacks : ControlType → List CallbackEntry := fun _ => []
  category_callbacks : String → List CallbackEntry := fun _ => []

/-- `CallbackManager.register_control` (`callbacks.py` lines 66–80):
append to the per-control list. The other `register_*` methods append
likewise. -/
def registerControlCallback (m : CallbackManager) (control_id : String)
    (e : CallbackEntry) : CallbackManager :=
  { m with control_callbacks := fun i =>
      if i = control_id then m.control_callbacks i ++ [e]
      else m.control_callbacks i }

/-- `CallbackManager.register_global` (`callbacks.py` lines 54–64). -/
def registerGlobalCallback (m : CallbackManager) (e : CallbackEntry) :
    CallbackManager :=
  { m with global_callbacks := m.global_callbacks ++ [e] }

/-- `CallbackManager._safe_call` (`callbacks.py` lines 312–328) applied in
a dispatch loop: the callback is invoked (recorded in the trace), and if
it raises the exception is caught and logged (recorded in the error log)
— dispatch continues either way. The accumulator is
`(invocation trace, logged errors)`. -/
def safeCallRun (acc : List Nat × List Nat) (cb : RegisteredCallback) :
    List Nat × List Nat :=
  (acc.1 ++ [cb.cbId], if cb.raises then acc.2 ++ [cb.cbId] else acc.2)

/-- The per-entry filter check of every dispatch loop:
`filter_type is None or filter_type == signal_type`. -/
def entryMatches (signal_type : String) (e : CallbackEntry) : Bool :=
  e.2 = none ∨ e.2 = some signal_type

/-- One tier's dispatch loop (`for callback, filter_type in cbs: if
filter_type is None or filter_type == signal_type: self._safe_call(...)`). -/
def tierRun (signal_type : String) (acc : List Nat × List Nat)
    (cbs : List CallbackEntry) : List Nat × List Nat :=
  cbs.foldl
    (fun a e => if entryMatches signal_type e then safeCallRun a e.1 else a)
    acc

/-- `CallbackManager.on_control_change` (`callbacks.py` lines 237–292):
copy the four tiers (per-control, per-category — skipped for a falsy
category, i.e. `None` or the empty string —, per-type, global), then run
them in that order through `_safe_call`. Returns the invocation trace and
the logged-error list. -/
def onControlChange (m : CallbackManager) (control_id : String)
    (control_type : ControlType) (signal_type : String)
    (category : Option String) : List Nat × List Nat :=
  let control_cbs := m.control_callbacks control_id
  let category_cbs :=
    match category with
    | some cat => if cat ≠ "" then m.category_callbacks cat else []
    | none => []
  let type_cbs := m.type_callbacks control_type
  let global_cbs := m.global_callbacks
  let acc := tierRun signal_type ([], []) control_cbs
  let acc := tierRun signal_type acc category_cbs
  let acc := tierRun signal_type acc type_cbs
  tierRun signal_type acc global_cbs

end Padbound

namespace Padbound

/-! ### MIDI input queue (`midi_io.py`) -/

/-- The bounded input queue of `MIDIInterface`
(`queue.Queue(maxsize=1000)`, `midi_io.py` line 46) together with the
dropped-message counter. -/
structure MidiQueue where
  queued : List MidiMsg := []
  dropped : Nat := 0
deriving DecidableEq, Repr

/-- One `put_nowait` from `MIDIInterface._input_loop` (`midi_io.py` lines
171–177): enqueue, or on `queue.Full` count a drop (the overflow is
logged, never raised to the caller). -/
def putNowait (q : MidiQueue) (m : MidiMsg) : MidiQueue :=
  if q.queued.length < 1000 then { q with queued := q.queued ++ [m] }
  else { q with dropped := q.dropped + 1 }

/-- The input loop enqueueing a burst of pending messages, in arrival
order, without any intervening processing. -/
def inputLoopEnqueue (q : MidiQueue) (msgs : List MidiMsg) : MidiQueue :=
  msgs.foldl putNowait q

/-- `MIDIInterface.process_pending_messages` (`midi_io.py` lines
189–210): drain the queue with `get_nowait` until `queue.Empty`,
dispatching each message; a handler exception is caught and logged (the
message still leaves the queue but is not counted). Returns the processed
count and the drained queue. -/
def processPendingMessages (handlerOk : MidiMsg → Bool) :
    MidiQueue → Nat × MidiQueue
  | { queued := [], dropped } => (0, { queued := [], dropped })
  | { queued := m :: rest, dropped } =>
    let r := processPendingMessages handlerOk { queued := rest, dropped }
    ((if handlerOk m then 1 else 0) + r.1, r.2)

end Padbound

namespace Padbound

/-! ### Colour model (`utils.py`)

`RGBColor.from_string` lowercases and strips its input, then tries the
named palette, the `#RRGGBB` hex branch, and the `rgb(r, g, b)` branch,
falling back to white. The hex and rgb branches parse their components
with Python's `int(...)`, whose accepted syntax (optional surrounding
whitespace, one optional sign, digits with single embedded underscores)
is modelled here for ASCII strings; Python additionally accepts
non-ASCII whitespace and digit codepoints, which none of the palette
names, canonical colour forms, or concrete inputs traced below contain. -/

/-- ASCII whitespace as stripped by `str.strip()` and accepted inside
`int()`. -/
def pyIsSpace (c : Char) : Bool :=
  c.toNat = 32 ∨ c.toNat = 9 ∨ c.toNat = 10 ∨ c.toNat = 13 ∨
    c.toNat = 11 ∨ c.toNat = 12

/-- `str.lower()` on one ASCII character. -/
def pyLowerChar (c : Char) : Char :=
  if 65 ≤ c.toNat ∧ c.toNat ≤ 90 then Char.ofNat (c.toNat + 32) else c

/-- `str.strip()` on a character list: drop leading and trailing
whitespace. -/
def pyStripList (cs : List Char) : List Char :=
  ((cs.dropWhile pyIsSpace).reverse.dropWhile pyIsSpace).reverse

/-- A hexadecimal digit's value (`0-9`, `a-f`, `A-F`). -/
def hexDigitVal (c : Char) : Option Nat :=
  if 48 ≤ c.toNat ∧ c.toNat ≤ 57 then some (c.toNat - 48)
  else if 97 ≤ c.toNat ∧ c.toNat ≤ 102 then some (c.toNat - 87)
  else if 65 ≤ c.toNat ∧ c.toNat ≤ 70 then some (c.toNat - 55)
  else none

/-- A decimal digit's value. -/
def decDigitVal (c : Char) : Option Nat :=
  if 48 ≤ c.toNat ∧ c.toNat ≤ 57 then some (c.toNat - 48) else none

/-- The digit run of Python's `int()`: digits with single underscores
allowed only between two digits (`1_0` parses, `_1`, `1_`, `1__0` do
not). Accumulates the value left to right. -/
def parseDigitsGo (dv : Char → Option Nat) (base : Nat) :
    Nat → List Char → Option Nat
  | acc, [] => some acc
  | acc, c :: rest =>
    if c = '_' then
      match rest with
      | [] => none
      | c2 :: rest2 =>
        match dv c2 with
        | some d => parseDigitsGo dv base (acc * base + d) rest2
        | none => none
    else
      match dv c with
      | some d => parseDigitsGo dv base (acc * base + d) rest
      | none => none

/-- A nonempty digit run (first character must be a digit). -/
def parseDigits (dv : Char → Option Nat) (base : Nat) :
    List Char → Option Nat
  | [] => none
  | c :: rest =>
    match dv c with
    | some d => parseDigitsGo dv base d rest
    | none => none

/-- The sign-and-digits part of Python `int(s, base)`, applied after
stripping: one optional sign, then a digit run; anything else raises
`ValueError` (modelled as `none`). -/
def pyIntCore (dv : Char → Option Nat) (base : Nat) :
    List Char → Option Int
  | [] => none
  | c :: rest =>
    if c = '+' then (parseDigits dv base rest).map (fun n : Nat => (n : Int))
    else if c = '-' then (parseDigits dv base rest).map (fun n : Nat => -(n : Int))
    else (parseDigits dv base (c :: rest)).map (fun n : Nat => (n : Int))

/-- Python `int(s, base)` on an ASCII string: strip whitespace, then sign
and digit run. -/
def pyIntFromList (dv : Char → Option Nat) (base : Nat)
    (cs : List Char) : Option Int :=
  pyIntCore dv base (pyStripList cs)

/-- `RGBColor` from `utils.py`: channels in `0..255`. -/
structure RGBColor where
  r : Int
  g : Int
  b : Int
deriving DecidableEq, Repr

/-- `NAMED_COLORS` from `utils.py` (lines 11–27). -/
def namedColors : List (String × Int × Int × Int) :=
  [("off", 0, 0, 0), ("black", 0, 0, 0), ("red", 255, 0, 0),
   ("green", 0, 255, 0), ("blue", 0, 0, 255), ("yellow", 255, 255, 0),
   ("cyan", 0, 255, 255), ("magenta", 255, 0, 255), ("white", 255, 255, 255),
   ("orange", 255, 128, 0), ("purple", 128, 0, 255), ("pink", 255, 64, 128),
   ("lime", 128, 255, 0), ("teal", 0, 255, 128), ("violet", 128, 0, 255)]

/-- The `color in NAMED_COLORS` dictionary lookup. -/
def namedLookup (cs : List Char) : Option (Int × Int × Int) :=
  namedColors.findSome? (fun p => if p.1.toList = cs then some p.2 else none)

/-- The Python slice `cs[i:j]`. -/
def slice (cs : List Char) (i j : Nat) : List Char := (cs.drop i).take (j - i)

/-- The hex branch of `from_string` (`utils.py` lines 66–73): requires
`startswith('#')` and length 7, parses the three two-character slices
with `int(·, 16)`, and builds the colour; a `ValueError` — from parsing
or from pydantic's 0–255 field validation (pydantic's `ValidationError`
is a `ValueError`) — is caught and falls through. -/
def hexBranch (cs : List Char) : Option RGBColor :=
  if cs.head? = some '#' ∧ cs.length = 7 then
    match pyIntFromList hexDigitVal 16 (slice cs 1 3),
        pyIntFromList hexDigitVal 16 (slice cs 3 5),
        pyIntFromList hexDigitVal 16 (slice cs 5 7) with
    | some r, some g, some b =>
      if 0 ≤ r ∧ r ≤ 255 ∧ 0 ≤ g ∧ g ≤ 255 ∧ 0 ≤ b ∧ b ≤ 255 then
        some ⟨r, g, b⟩
      else none
    | _, _, _ => none
  else none

/-- Python `"…".split(",")` (always at least one piece). -/
def splitOnComma : List Char → List (List Char)
  | [] => [[]]
  | c :: rest =>
    if c = ',' then [] :: splitOnComma rest
    else
      match splitOnComma rest with
      | h :: t => (c :: h) :: t
      | [] => [[c]]

/-- One component of the rgb branch:
`max(0, min(255, int(v.strip())))`. -/
def clampParse (v : List Char) : Option Int :=
  (pyIntFromList decDigitVal 10 v).map (fun n => max 0 (min 255 n))

/-- The comprehension over all components (fails if any `int()` fails). -/
def parseComponents : List (List Char) → Option (List Int)
  | [] => some []
  | v :: rest =>
    match clampParse v, parseComponents rest with
    | some n, some ns => some (n :: ns)
    | _, _ => none

/-- The rgb branch of `from_string` (`utils.py` lines 76–82): requires
`startswith("rgb(")` and `endswith(")")`, splits `color[4:-1]` on
commas, clamps each parsed component to `0..255`, and unpacks exactly
three values; a `ValueError`/`IndexError` is caught and falls through. -/
def rgbBranch (cs : List Char) : Option RGBColor :=
  if cs.take 4 = ['r', 'g', 'b', '('] ∧ cs.getLast? = some ')' then
    match parseComponents (splitOnComma ((cs.drop 4).take (cs.length - 5))) with
    | some [r, g, b] => some ⟨r, g, b⟩
    | _ => none
  else none

/-- `RGBColor.from_string` after lowercasing and stripping: named
palette, hex branch, rgb branch, white fallback. Total by construction —
every exception path of the source is caught there and becomes a
fall-through here. -/
def fromChars (cs : List Char) : RGBColor :=
  match namedLookup cs with
  | some (r, g, b) => ⟨r, g, b⟩
  | none =>
    match hexBranch cs with
    | some col => col
    | none =>
      match rgbBranch cs with
      | some col => col
      | none => ⟨255, 255, 255⟩

/-- `RGBColor.from_string` (`utils.py` lines 45–86):
`color.lower().strip()`, then the three branches and the white
fallback. -/
def fromString (color : String) : RGBColor :=
  fromChars (pyStripList (color.toList.map pyLowerChar))

/-- Follows the spec's words, not the source: a well-formed `#RRGGBB`
string is `#` followed by exactly six hexadecimal digits. -/
def specWellFormedHex (s : String) : Bool :=
  match s.toList with
  | c :: rest =>
    c = '#' && rest.length = 6 && rest.all (fun ch => (hexDigitVal ch).isSome)
  | [] => false

/-- Follows the spec's words, not the source: a canonical `rgb(r, g, b)`
string — `rgb(`, three comma-separated components each a nonempty run of
decimal digits with optional surrounding spaces, then `)`. -/
def specCanonicalRgb (s : String) : Bool :=
  let cs := s.toList
  (cs.take 4 = ['r', 'g', 'b', '('] && cs.getLast? = some ')') &&
    (let values := splitOnComma ((cs.drop 4).take (cs.length - 5))
     values.length = 3 && values.all (fun v =>
       let t := pyStripList v
       (! t.isEmpty) && t.all (fun ch => (decDigitVal ch).isSome)))

end Padbound

namespace Padbound

/-- All characters of a component are decimal digits. -/
def allDecDigits (u : List Char) : Prop := ∀ c ∈ u, (decDigitVal c).isSome

end Padbound

namespace Padbound

/-! ### Theorems for claims C4 and C5 -/

/-- **C4.** For every toggle control and every inbound value: if `value > 0`
then `is_on` flips exactly once (`new is_on = not old is_on`), and if
`value == 0` then `is_on` is unchanged from the previous state
(`ToggleControl._compute_new_state`). -/
theorem toggle_flips_on_press_only (defn : ControlDefinition)
    (st : ControlState) (now : Nat) (value : Int) (b : Bool)
    (hprev : st.is_on = some b) :
    (value > 0 →
      (toggleComputeNewState defn st now value).is_on = some (! b)) ∧
    (value = 0 →
      (toggleComputeNewState defn st now value).is_on = some b) := by
  constructor
  · intro hv
    simp [toggleComputeNewState, hv, hprev, truthy]
  · intro hv
    simp [toggleComputeNewState, hv, hprev]

/-- Witness for C4: a concrete press (`value = 127`) flips `is_on` from
`false` to `true`, and a concrete release (`value = 0`) leaves it `false`. -/
theorem toggle_flips_on_press_only_witness :
    (toggleComputeNewState
      { control_id := "pad_1", control_type := .toggle, capabilities := {} }
      { control_id := "pad_1", is_on := some false } 5 127).is_on = some true ∧
    (toggleComputeNewState
      { control_id := "pad_1", control_type := .toggle, capabilities := {} }
      { control_id := "pad_1", is_on := some false } 5 0).is_on = some false := by
  refine ⟨?_, ?_⟩
  · have h := toggle_flips_on_press_only
      { control_id := "pad_1", control_type := .toggle, capabilities := {} }
      { control_id := "pad_1", is_on := some false } 5 127 false rfl
    exact h.1 (by norm_num)
  · have h := toggle_flips_on_press_only
      { control_id := "pad_1", control_type := .toggle, capabilities := {} }
      { control_id := "pad_1", is_on := some false } 5 0 false rfl
    exact h.2 rfl

/-- **C5.** For every continuous control with `min_value < max_value` and
every inbound value `v`, the resulting state has `value = v` and
`normalized_value = clamp ((v - min)/(max - min)) [0,1]`; moreover for any
continuous transition whatsoever the computed `normalized_value` lies in
`[0, 1]` (`ContinuousControl._compute_new_state`). -/
theorem continuous_value_and_normalization (defn : ControlDefinition)
    (st : ControlState) (now : Nat) (v : Int)
    (hlt : defn.min_value < defn.max_value) :
    ((continuousComputeNewState defn st now v).value = some v ∧
     (continuousComputeNewState defn st now v).normalized_value =
       some (clamp01 (((v : ℚ) - (defn.min_value : ℚ)) /
         ((defn.max_value : ℚ) - (defn.min_value : ℚ)))) ) ∧
    ∀ q, (continuousComputeNewState defn st now v).normalized_value = some q →
      0 ≤ q ∧ q ≤ 1 := by
  have hrange : defn.max_value - defn.min_value > 0 := by omega
  constructor
  · constructor
    · simp [continuousComputeNewState]
    · simp only [continuousComputeNewState, hrange, if_pos]
      have : ((defn.max_value - defn.min_value : Int) : ℚ) =
          (defn.max_value : ℚ) - (defn.min_value : ℚ) := by push_cast; ring
      rw [this]
  · intro q hq
    simp only [continuousComputeNewState, Option.some.injEq] at hq
    subst hq
    unfold clamp01
    constructor
    · exact le_max_left 0 _
    · have h1 : min 1 (if ((defn.max_value - defn.min_value : Int) > 0)
          then ((v : ℚ) - (defn.min_value : ℚ)) / ((defn.max_value - defn.min_value : Int) : ℚ)
          else 0) ≤ 1 := min_le_left 1 _
      exact max_le (by norm_num) h1

/-- Witness for C5: a fader with range `0..127` receiving value `64`
stores `value = 64` and `normalized_value = 64/127 ∈ [0,1]`. -/
theorem continuous_value_and_normalization_witness :
    ((continuousComputeNewState
        { control_id := "fader_1", control_type := .continuous,
          capabilities := {}, min_value := 0, max_value := 127 }
        { control_id := "fader_1" } 9 64).value = some 64 ∧
     (continuousComputeNewState
        { control_id := "fader_1", control_type := .continuous,
          capabilities := {}, min_value := 0, max_value := 127 }
        { control_id := "fader_1" } 9 64).normalized_value =
        some (clamp01 (((64 : ℚ) - ((0 : Int) : ℚ)) / (((127 : Int) : ℚ) - ((0 : Int) : ℚ))))) ∧
    ∀ q, (continuousComputeNewState
        { control_id := "fader_1", control_type := .continuous,
          capabilities := {}, min_value := 0, max_value := 127 }
        { control_id := "fader_1" } 9 64).normalized_value = some q →
      0 ≤ q ∧ q ≤ 1 := by
  exact continuous_value_and_normalization
    { control_id := "fader_1", control_type := .continuous,
      capabilities := {}, min_value := 0, max_value := 127 }
    { control_id := "fader_1" } 9 64 (by norm_num)

end Padbound

namespace Padbound

/-! ### Theorems for claims C6 and C10 -/

/-- After one `update_state` on a registered control, the call succeeds,
returns the `update_from_midi` snapshot, stores the updated control and
appends the snapshot to the history. -/
theorem updateState_step (s : ControllerStore) (control_id : String)
    (now : Nat) (v : Int) (c : Control)
    (hc : s.controls control_id = some c) :
    ∃ s', updateState s control_id now v = .ok (s', (updateFromMidi c now v).2) ∧
      s'.controls control_id = some (updateFromMidi c now v).1 ∧
      s'.history = historyAppend s.history (control_id, (updateFromMidi c now v).2) := by
  refine ⟨⟨fun i => if i = control_id then some (updateFromMidi c now v).1
            else s.controls i,
           historyAppend s.history (control_id, (updateFromMidi c now v).2)⟩,
          ?_, ?_, rfl⟩
  · simp [updateState, hc]
  · simp

/-- `update_from_midi` always marks the result discovered, and preserves a
previously set `first_discovered_at`. -/
theorem updateFromMidi_discovery (c : Control) (now : Nat) (v : Int) :
    ((updateFromMidi c now v).1.state.is_discovered = true ∧
     (updateFromMidi c now v).2 = (updateFromMidi c now v).1.state) ∧
    (c.state.is_discovered = true →
      (updateFromMidi c now v).1.state.first_discovered_at =
        c.state.first_discovered_at) ∧
    (c.state.is_discovered = false →
      (updateFromMidi c now v).1.state.first_discovered_at = some now) := by
  refine ⟨⟨rfl, rfl⟩, ?_, ?_⟩
  · intro h
    simp [updateFromMidi, h]
  · intro h
    simp [updateFromMidi, h]

/-- If a registered control is already discovered, any run of further
`update_state` calls keeps it registered, discovered, and with its
`first_discovered_at` unchanged. -/
theorem runUpdates_preserves_first (control_id : String)
    (us : List (Nat × Int)) :
    ∀ (s : ControllerStore) (c : Control),
    s.controls control_id = some c →
    c.state.is_discovered = true →
    ∃ s' c', runUpdates s control_id us = .ok s' ∧
      s'.controls control_id = some c' ∧
      c'.state.is_discovered = true ∧
      c'.state.first_discovered_at = c.state.first_discovered_at := by
  induction us with
  | nil =>
    intro s c hc hd
    exact ⟨s, c, rfl, hc, hd, rfl⟩
  | cons u rest ih =>
    intro s c hc hd
    obtain ⟨now, v⟩ := u
    obtain ⟨s1, hstep, hreg, _⟩ := updateState_step s control_id now v c hc
    have hdisc := updateFromMidi_discovery c now v
    obtain ⟨s', c', hrun, hc', hd', hf'⟩ := ih s1 _ hreg hdisc.1.1
    refine ⟨s', c', ?_, hc', hd', ?_⟩
    · simp only [runUpdates, hstep, bind, Except.bind]
      exact hrun
    · rw [hf', hdisc.2.1 hd]

/-- **C6.** For every registered control and every call to `update_state`,
the resulting state has `is_discovered = true`; starting from an
undiscovered control, the first update sets `first_discovered_at` to the
time of that update and no later update in the run ever changes it
(`Control.update_from_midi`, `ControllerState.update_state`). -/
theorem updateState_discovery_exactly_once (s : ControllerStore)
    (control_id : String) (c : Control) (t0 : Nat) (v0 : Int)
    (us : List (Nat × Int))
    (hc : s.controls control_id = some c)
    (hundiscovered : c.state.is_discovered = false) :
    ∃ s' c', runUpdates s control_id ((t0, v0) :: us) = .ok s' ∧
      s'.controls control_id = some c' ∧
      c'.state.is_discovered = true ∧
      c'.state.first_discovered_at = some t0 := by
  obtain ⟨s1, hstep, hreg, _⟩ := updateState_step s control_id t0 v0 c hc
  have hdisc := updateFromMidi_discovery c t0 v0
  obtain ⟨s', c', hrun, hc', hd', hf'⟩ :=
    runUpdates_preserves_first control_id us s1 _ hreg hdisc.1.1
  refine ⟨s', c', ?_, hc', hd', ?_⟩
  · simp only [runUpdates, hstep, bind, Except.bind]
    exact hrun
  · rw [hf', hdisc.2.2 hundiscovered]

/-- Witness for C6: a freshly registered (undiscovered) toggle pad updated
at times 3, 7 and 8 ends discovered with `first_discovered_at = 3`. -/
theorem updateState_discovery_exactly_once_witness :
    ∃ s' c',
      runUpdates
        (registerControl { controls := fun _ => none, history := [] }
          { definition :=
              { control_id := "pad_1", control_type := .toggle, capabilities := {} }
            state := { control_id := "pad_1", is_discovered := false, is_on := some false } })
        "pad_1" [(3, 127), (7, 0), (8, 127)] = .ok s' ∧
      s'.controls "pad_1" = some c' ∧
      c'.state.is_discovered = true ∧
      c'.state.first_discovered_at = some 3 := by
  exact updateState_discovery_exactly_once _ "pad_1"
    { definition :=
        { control_id := "pad_1", control_type := .toggle, capabilities := {} }
      state := { control_id := "pad_1", is_discovered := false, is_on := some false } }
    3 127 [(7, 0), (8, 127)] (by simp [registerControl]) rfl

/-- **C10.** For every registered control and every snapshot passed to
`set_control_state`, the stored state and the appended history entry equal
the given snapshot verbatim: unlike `update_state`, `set_control_state`
performs no discovery tracking — it neither forces `is_discovered := true`
nor populates `first_discovered_at` beyond what the caller supplied
(`ControllerState.set_control_state`). -/
theorem setControlState_verbatim (s : ControllerStore) (control_id : String)
    (ns : ControlState) (c : Control)
    (hc : s.controls control_id = some c) :
    ∃ s', setControlState s control_id ns = .ok (s', ns) ∧
      s'.controls control_id = some { c with state := ns } ∧
      s'.history = historyAppend s.history (control_id, ns) ∧
      (∀ c', s'.controls control_id = some c' →
        c'.state.is_discovered = ns.is_discovered ∧
        c'.state.first_discovered_at = ns.first_discovered_at) := by
  refine ⟨⟨fun i => if i = control_id then some { c with state := ns }
            else s.controls i,
           historyAppend s.history (control_id, ns)⟩,
          by simp [setControlState, hc], by simp, rfl, ?_⟩
  intro c' hc'
  have heq : some ({ c with state := ns } : Control) = some c' := by
    simpa using hc'
  obtain rfl := Option.some.inj heq
  exact ⟨rfl, rfl⟩

/-- Witness for C10: writing a snapshot with `is_discovered = false` and
`first_discovered_at = none` through `set_control_state` stores exactly
that snapshot (no discovery tracking is applied). -/
theorem setControlState_verbatim_witness :
    ∃ s', setControlState
        (registerControl { controls := fun _ => none, history := [] }
          { definition :=
              { control_id := "pad_1", control_type := .toggle, capabilities := {} }
            state := { control_id := "pad_1", is_discovered := true,
                       first_discovered_at := some 2, is_on := some true } })
        "pad_1"
        { control_id := "pad_1", is_discovered := false,
          first_discovered_at := none, is_on := some false } =
      .ok (s', { control_id := "pad_1", is_discovered := false,
                 first_discovered_at := none, is_on := some false }) ∧
      s'.controls "pad_1" = some
        { definition :=
            { control_id := "pad_1", control_type := .toggle, capabilities := {} }
          state := { control_id := "pad_1", is_discovered := false,
                     first_discovered_at := none, is_on := some false } } ∧
      s'.history = historyAppend []
        ("pad_1", { control_id := "pad_1", is_discovered := false,
                    first_discovered_at := none, is_on := some false }) ∧
      (∀ c', s'.controls "pad_1" = some c' →
        c'.state.is_discovered = false ∧
        c'.state.first_discovered_at = none) := by
  obtain ⟨s', h1, h2, h3, h4⟩ := setControlState_verbatim
    (registerControl { controls := fun _ => none, history := [] }
      { definition :=
          { control_id := "pad_1", control_type := .toggle, capabilities := {} }
        state := { control_id := "pad_1", is_discovered := true,
                   first_discovered_at := some 2, is_on := some true } })
    "pad_1"
    { control_id := "pad_1", is_discovered := false,
      first_discovered_at := none, is_on := some false }
    { definition :=
        { control_id := "pad_1", control_type := .toggle, capabilities := {} }
      state := { control_id := "pad_1", is_discovered := true,
                 first_discovered_at := some 2, is_on := some true } }
    (by simp [registerControl])
  refine ⟨s', h1, h2, h3, ?_⟩
  intro c' hc'
  exact h4 c' hc'

end Padbound

namespace Padbound

/-! ### Theorem for claim C1 -/

/-- **C1** (code bug). The spec and `Controller._create_control`
(`controller.py` lines 775–778) expect `resolve_config` to return a
five-component tuple `(type, on_color, off_color, on_led_mode,
off_led_mode)`, but `ControlConfigResolver.resolve_config` (`config.py`
lines 155–230) returns the four-component tuple `(type, on_color,
off_color, led_mode)`: whenever `resolve_config` returns at all (it is a
pure function), the five-name unpacking in `_create_control` raises
`ValueError`, so the resolution step never yields a five-tuple. -/
theorem resolveConfig_returns_four_not_five (cfg : Option ControllerConfig)
    (control_id : String) (definition : ControlDefinition)
    (l : List PyVal)
    (hok : resolveConfigTuple cfg control_id definition = .ok l) :
    l.length = 4 ∧
    unpackFive l = .error "ValueError: not enough values to unpack (expected 5, got 4)" ∧
    createControlResolveStep cfg control_id definition =
      .error "ValueError: not enough values to unpack (expected 5, got 4)" := by
  unfold resolveConfigTuple at hok
  cases hres : resolveConfig cfg control_id definition with
  | error e => rw [hres] at hok; simp [Except.map] at hok
  | ok r =>
    rw [hres] at hok
    simp only [Except.map, Except.ok.injEq] at hok
    subst hok
    refine ⟨rfl, rfl, ?_⟩
    unfold createControlResolveStep resolveConfigTuple
    rw [hres]
    rfl

/-- Witness for C1: with no user config, resolving pad `pad_1` (a plain
toggle definition) succeeds with the four-component tuple, and the
five-name unpacking of `_create_control` raises `ValueError` on it. -/
theorem resolveConfig_returns_four_not_five_witness :
    resolveConfigTuple none "pad_1"
      { control_id := "pad_1", control_type := .toggle, capabilities := {} } =
      .ok [.ofType .toggle, .ofStr none, .ofStr none, .ofStr none] ∧
    ([PyVal.ofType .toggle, .ofStr none, .ofStr none, .ofStr none].length = 4 ∧
     unpackFive [.ofType .toggle, .ofStr none, .ofStr none, .ofStr none] =
       .error "ValueError: not enough values to unpack (expected 5, got 4)" ∧
     createControlResolveStep none "pad_1"
       { control_id := "pad_1", control_type := .toggle, capabilities := {} } =
       .error "ValueError: not enough values to unpack (expected 5, got 4)") := by
  constructor
  · rfl
  · exact resolveConfig_returns_four_not_five none "pad_1"
      { control_id := "pad_1", control_type := .toggle, capabilities := {} }
      [.ofType .toggle, .ofStr none, .ofStr none, .ofStr none] rfl

end Padbound

namespace Padbound

/-! ### Theorem for claim C3 -/

/-- **C3** (code bug). On the AKAI APC mini MK2, `can_set_state("pad_0_0",
is_on=True)` returns `true` (the pad supports feedback), yet
`set_state("pad_0_0", is_on=True)` raises `TypeError` in both strict and
permissive mode — whatever the plugin method's body computes — because
`Controller.set_state` (line 471) calls `translate_feedback(control_id,
kwargs)` with two positional arguments while
`AkaiAPCminiMK2Plugin.translate_feedback` (lines 1078–1083) requires the
three positional parameters `(control_id, state, definition)`. -/
theorem canSetState_true_but_setState_raises (strict : Bool)
    (f : String → ControlState → ControlDefinition → List MidiMsg) :
    canSetState (apcControllerWith strict f) "pad_0_0"
      { is_on := some (some true) } = true ∧
    setState (apcControllerWith strict f) "pad_0_0"
      { is_on := some (some true) } =
      .error "TypeError: translate_feedback() missing 1 required positional argument: definition" := by
  constructor
  · rfl
  · rfl

end Padbound

namespace Padbound

/-! ### Theorems for claim C2 -/

/-- **C2** (counterexample). Two accepted inbound messages on the
`requires_feedback` toggle pad — a press (`velocity 127`) that flips
`is_on`, then a release (`velocity 0`) that changes neither `is_on` nor
`color` — produce **two** outbound feedback messages, while only **one**
accepted message changed `is_on` or `color`: the pipeline dispatches
feedback after every accepted inbound message, so the claimed equality of
counts fails and a no-change event still produces an outbound LED
message. -/
theorem feedback_count_mismatch_counterexample :
    (runInbound c2Hooks { store := c2Store }
      [(1, .noteOn 0 36 127), (2, .noteOn 0 36 0)]).outbound.length = 2 ∧
    changedCount (runInbound c2Hooks { store := c2Store }
      [(1, .noteOn 0 36 127), (2, .noteOn 0 36 0)]).events = 1 ∧
    (2 : Nat) ≠ 1 := by
  refine ⟨?_, ?_, by norm_num⟩
  · rfl
  · rfl

/-- **C2** (amended). For every plugin and store: when an inbound message
is accepted (no bank switch, translated, control found, default state
path) on a control with `requires_feedback = true`, the pipeline calls
`translate_feedback` on the new state's dict and dispatches exactly its
returned messages — irrespective of whether the accepted event changed
`is_on` or `color`. -/
theorem pipeline_feedback_on_every_accepted (hooks : PluginHooks)
    (s : ControllerStore) (now : Nat) (msg : MidiMsg)
    (control_id : String) (value : Int) (signal_type : String) (c : Control)
    (tb : Bool)
    (hbank : hooks.translate_bank_switch msg = none)
    (hinput : hooks.translate_input msg = some (control_id, value, signal_type))
    (hc : s.controls control_id = some c)
    (hreq : c.definition.capabilities.requires_feedback = true)
    (hcompute : hooks.compute_control_state control_id value signal_type
      c.state c.definition = (none, tb)) :
    (onMidiMessage hooks s now msg).accepted =
      some (control_id, c.state, (updateFromMidi c now value).2) ∧
    (onMidiMessage hooks s now msg).outbound =
      (match callTranslateFeedbackTwoArgs hooks.translate_feedback control_id
          (autoFeedbackDict c.definition (updateFromMidi c now value).2) with
       | .ok messages => messages
       | .error _ => []) := by
  obtain ⟨s1, hstep, -, -⟩ := updateState_step s control_id now value c hc
  unfold onMidiMessage
  rw [hbank]
  unfold onMidiMessage.processInput
  rw [hinput]
  simp only [hc, hcompute, hstep, hreq]
  cases hcall : callTranslateFeedbackTwoArgs hooks.translate_feedback control_id
      (autoFeedbackDict c.definition (updateFromMidi c now value).2) with
  | ok messages => simp [hcall]
  | error e => simp [hcall]

/-- Witness for the amended C2: the press message of the counterexample
setup is accepted and its outbound messages are exactly the default
translator's output (one `note_on` with velocity 127). -/
theorem pipeline_feedback_on_every_accepted_witness :
    (onMidiMessage c2Hooks c2Store 1 (.noteOn 0 36 127)).accepted =
      some ("pad_1",
        ({ control_id := "pad_1", is_on := some false, color := some "off" } : ControlState),
        (updateFromMidi
          { definition := c2PadDefinition
            state := { control_id := "pad_1", is_on := some false,
                       color := some "off" } } 1 127).2) ∧
    (onMidiMessage c2Hooks c2Store 1 (.noteOn 0 36 127)).outbound =
      (match callTranslateFeedbackTwoArgs c2Hooks.translate_feedback "pad_1"
          (autoFeedbackDict c2PadDefinition
            (updateFromMidi
              { definition := c2PadDefinition
                state := { control_id := "pad_1", is_on := some false,
                           color := some "off" } } 1 127).2) with
       | .ok messages => messages
       | .error _ => []) := by
  exact pipeline_feedback_on_every_accepted c2Hooks c2Store 1 (.noteOn 0 36 127)
    "pad_1" 127 "note"
    { definition := c2PadDefinition
      state := { control_id := "pad_1", is_on := some false,
                 color := some "off" } }
    true rfl rfl rfl rfl rfl

end Padbound

namespace Padbound

/-! ### Theorem for claim C8 -/

/-- One tier appends exactly its filter-matching callbacks, in list
(registration) order, to both the trace and (for raisers) the error log. -/
theorem tierRun_spec (signal_type : String) (cbs : List CallbackEntry) :
    ∀ acc, tierRun signal_type acc cbs =
      (acc.1 ++ (cbs.filter (entryMatches signal_type)).map (fun e => e.1.cbId),
       acc.2 ++ ((cbs.filter (entryMatches signal_type)).filter
         (fun e => e.1.raises)).map (fun e => e.1.cbId)) := by
  induction cbs with
  | nil => intro acc; simp [tierRun]
  | cons e rest ih =>
    intro acc
    by_cases hm : entryMatches signal_type e
    · rw [show tierRun signal_type acc (e :: rest) =
          tierRun signal_type (safeCallRun acc e.1) rest by
            simp [tierRun, hm]]
      rw [ih]
      by_cases hr : e.1.raises
      · simp [safeCallRun, hm, hr]
      · simp [safeCallRun, hm, hr]
    · rw [show tierRun signal_type acc (e :: rest) =
          tierRun signal_type acc rest by simp [tierRun, hm]]
      rw [ih]
      simp [hm]

/-- **C8.** On each dispatched control change, callbacks run in
specificity order — per-control, then per-category, then per-type, then
global — and within one tier in registration (list) order; the trace is
exactly the ordered concatenation of the filter-matching entries of the
four tiers, *independently of which callbacks raise*: a raising callback
is caught (it appears in the error log) and every remaining callback
still runs (`CallbackManager.on_control_change`, `_safe_call`). -/
theorem dispatch_order_and_error_isolation (m : CallbackManager)
    (control_id : String) (control_type : ControlType)
    (signal_type : String) (category : Option String) :
    (onControlChange m control_id control_type signal_type category).1 =
      ((m.control_callbacks control_id).filter (entryMatches signal_type)
        ++ ((match category with
             | some cat => if cat ≠ "" then m.category_callbacks cat else []
             | none => []).filter (entryMatches signal_type))
        ++ ((m.type_callbacks control_type).filter (entryMatches signal_type))
        ++ (m.global_callbacks.filter (entryMatches signal_type))).map
        (fun e => e.1.cbId) ∧
    (onControlChange m control_id control_type signal_type category).2 =
      (((m.control_callbacks control_id).filter (entryMatches signal_type)
        ++ ((match category with
             | some cat => if cat ≠ "" then m.category_callbacks cat else []
             | none => []).filter (entryMatches signal_type))
        ++ ((m.type_callbacks control_type).filter (entryMatches signal_type))
        ++ (m.global_callbacks.filter (entryMatches signal_type))).filter
        (fun e => e.1.raises)).map (fun e => e.1.cbId) := by
  unfold onControlChange
  rw [tierRun_spec, tierRun_spec, tierRun_spec, tierRun_spec]
  simp [List.filter_append]

end Padbound

namespace Padbound

/-! ### Theorem for claim C9 -/

/-- Enqueueing `msgs` into a queue holding at most its capacity fills it
to `min (old + new) 1000` and counts every overflowing message as a
drop. -/
theorem inputLoopEnqueue_spec (msgs : List MidiMsg) :
    ∀ q : MidiQueue, q.queued.length ≤ 1000 →
      (inputLoopEnqueue q msgs).queued.length =
        min (q.queued.length + msgs.length) 1000 ∧
      (inputLoopEnqueue q msgs).dropped =
        q.dropped + (q.queued.length + msgs.length
          - min (q.queued.length + msgs.length) 1000) := by
  induction msgs with
  | nil =>
    intro q hq
    simp only [inputLoopEnqueue, List.foldl_nil, List.length_nil, Nat.add_zero]
    omega
  | cons m rest ih =>
    intro q hq
    have hstep : inputLoopEnqueue q (m :: rest) =
        inputLoopEnqueue (putNowait q m) rest := rfl
    rw [hstep]
    by_cases hlt : q.queued.length < 1000
    · have hput : putNowait q m = { q with queued := q.queued ++ [m] } := by
        simp [putNowait, hlt]
      rw [hput]
      have hlen : ({ q with queued := q.queued ++ [m] } : MidiQueue).queued.length =
          q.queued.length + 1 := by simp
      obtain ⟨h1, h2⟩ := ih { q with queued := q.queued ++ [m] } (by simp; omega)
      rw [hlen] at h1 h2
      simp only [h1, h2, List.length_cons]
      constructor <;> omega
    · have heq : q.queued.length = 1000 := by omega
      have hput : putNowait q m = { q with dropped := q.dropped + 1 } := by
        simp [putNowait, hlt]
      rw [hput]
      obtain ⟨h1, h2⟩ := ih { q with dropped := q.dropped + 1 } (by simpa using hq)
      have e1 : ({ q with dropped := q.dropped + 1 } : MidiQueue).queued.length
          = q.queued.length := rfl
      have e2 : ({ q with dropped := q.dropped + 1 } : MidiQueue).dropped
          = q.dropped + 1 := rfl
      rw [e1] at h1 h2
      rw [e2] at h2
      simp only [h1, h2, List.length_cons]
      constructor <;> omega

/-- Draining with an exception-free handler processes every queued
message and empties the queue. -/
theorem processPendingMessages_drains (q : MidiQueue) :
    (processPendingMessages (fun _ => true) q).1 = q.queued.length ∧
    (processPendingMessages (fun _ => true) q).2.queued = [] := by
  obtain ⟨l, d⟩ := q
  induction l with
  | nil => simp [processPendingMessages]
  | cons m rest ih =>
    simp only [processPendingMessages, if_pos rfl, List.length_cons, if_true]
    obtain ⟨ih1, ih2⟩ := ih
    constructor
    · simp only at ih1
      omega
    · exact ih2

/-- **C9.** Enqueuing 1500 inbound messages without intervening
processing accepts exactly 1000 into the bounded queue and counts exactly
500 drops, with no escaping exception (`put_nowait` overflow is caught
and counted); a subsequent `process_pending_messages` call drains and
processes exactly 1000 messages (`MIDIInterface._input_loop`,
`MIDIInterface.process_pending_messages`). -/
theorem queue_overflow_1500 :
    (inputLoopEnqueue {} (List.replicate 1500 (.other 0))).queued.length = 1000 ∧
    (inputLoopEnqueue {} (List.replicate 1500 (.other 0))).dropped = 500 ∧
    (processPendingMessages (fun _ => true)
      (inputLoopEnqueue {} (List.replicate 1500 (.other 0)))).1 = 1000 ∧
    (processPendingMessages (fun _ => true)
      (inputLoopEnqueue {} (List.replicate 1500 (.other 0)))).2.queued = [] := by
  obtain ⟨h1, h2⟩ := inputLoopEnqueue_spec (List.replicate 1500 (.other 0))
    {} (by decide)
  rw [List.length_replicate] at h1 h2
  have e0 : (({} : MidiQueue)).queued.length = 0 := rfl
  have e0d : (({} : MidiQueue)).dropped = 0 := rfl
  rw [e0] at h1 h2
  rw [e0d] at h2
  have hlen : (inputLoopEnqueue {} (List.replicate 1500 (.other 0))).queued.length
      = 1000 := by
    rw [h1]; omega
  have hdrop : (inputLoopEnqueue {} (List.replicate 1500 (.other 0))).dropped
      = 500 := by
    rw [h2]; omega
  obtain ⟨h3, h4⟩ := processPendingMessages_drains
    (inputLoopEnqueue {} (List.replicate 1500 (.other 0)))
  exact ⟨hlen, hdrop, by rw [h3, hlen], h4⟩

end Padbound

namespace Padbound

/-! ### Helper lemmas for the colour model -/

theorem char_toNat_ofNat_small {n : Nat} (h : n < 1000) :
    (Char.ofNat n).toNat = n := by
  have hv : n < 55296 ∨ 57343 < n ∧ n < 1114112 := by omega
  simp only [Char.ofNat, hv, dif_pos, Char.ofNatAux, Char.toNat]
  simp [UInt32.toNat, BitVec.toNat_ofNat]

theorem char_ne_of_toNat_ne {a b : Char} (h : a.toNat ≠ b.toNat) : a ≠ b :=
  fun he => h (he ▸ rfl)

/-- A character with a hexadecimal digit value keeps that value under
`str.lower()`. -/
theorem hexDigitVal_pyLowerChar {c : Char} {v : Nat}
    (h : hexDigitVal c = some v) : hexDigitVal (pyLowerChar c) = some v := by
  unfold hexDigitVal at h
  unfold pyLowerChar
  split_ifs at h with h1 h2 h3
  · rw [if_neg (by omega)]
    unfold hexDigitVal
    rw [if_pos h1]
    exact h
  · rw [if_neg (by omega)]
    unfold hexDigitVal
    rw [if_neg h1, if_pos h2]
    exact h
  · rw [if_pos (by omega)]
    have ht : (Char.ofNat (c.toNat + 32)).toNat = c.toNat + 32 :=
      char_toNat_ofNat_small (by omega)
    unfold hexDigitVal
    rw [ht]
    rw [if_neg (by omega), if_pos (by omega)]
    simp only [Option.some.injEq] at h ⊢
    omega

/-- A character with a hexadecimal digit value is not whitespace, not a
sign, not an underscore, and its value is at most 15. -/
theorem hexDigitChar_facts {c : Char} {v : Nat}
    (h : hexDigitVal c = some v) :
    pyIsSpace c = false ∧ c ≠ '+' ∧ c ≠ '-' ∧ c ≠ '_' ∧ v ≤ 15 := by
  unfold hexDigitVal at h
  have hplus : ('+' : Char).toNat = 43 := by decide
  have hminus : ('-' : Char).toNat = 45 := by decide
  have hund : ('_' : Char).toNat = 95 := by decide
  split_ifs at h with h1 h2 h3 <;>
    simp only [Option.some.injEq] at h <;>
    refine ⟨by simp [pyIsSpace]; omega,
      char_ne_of_toNat_ne (by omega),
      char_ne_of_toNat_ne (by omega),
      char_ne_of_toNat_ne (by omega), by omega⟩

/-- A decimal-digit character is unchanged by `str.lower()`, is not
whitespace, not a sign, not an underscore, not a comma, and its value is
at most 9. -/
theorem decDigitChar_facts {c : Char} {v : Nat}
    (h : decDigitVal c = some v) :
    pyLowerChar c = c ∧ pyIsSpace c = false ∧ c ≠ ',' ∧ c ≠ '+' ∧
      c ≠ '-' ∧ c ≠ '_' ∧ v ≤ 9 := by
  unfold decDigitVal at h
  split_ifs at h with h1
  simp only [Option.some.injEq] at h
  have hcomma : (',' : Char).toNat = 44 := by decide
  have hplus : ('+' : Char).toNat = 43 := by decide
  have hminus : ('-' : Char).toNat = 45 := by decide
  have hund : ('_' : Char).toNat = 95 := by decide
  exact ⟨by unfold pyLowerChar; rw [if_neg (by omega)],
    by simp [pyIsSpace]; omega,
    char_ne_of_toNat_ne (by omega),
    char_ne_of_toNat_ne (by omega),
    char_ne_of_toNat_ne (by omega),
    char_ne_of_toNat_ne (by omega), by omega⟩

/-- `dropWhile` is the identity on a list without whitespace. -/
theorem dropWhile_nonspace {u : List Char}
    (h : ∀ c ∈ u, pyIsSpace c = false) :
    u.dropWhile pyIsSpace = u := by
  cases u with
  | nil => rfl
  | cons c rest =>
    rw [List.dropWhile_cons, if_neg]
    simp [h c (List.mem_cons_self c rest)]

/-- `str.strip()` is the identity on a string without whitespace. -/
theorem pyStripList_nonspace {u : List Char}
    (h : ∀ c ∈ u, pyIsSpace c = false) : pyStripList u = u := by
  unfold pyStripList
  rw [dropWhile_nonspace h,
      dropWhile_nonspace (fun c hc => h c (List.mem_reverse.mp hc)),
      List.reverse_reverse]

end Padbound

namespace Padbound

/-- `int(s, 16)` on two hexadecimal digit characters. -/
theorem pyInt_two_hex {c1 c2 : Char} {v1 v2 : Nat}
    (h1 : hexDigitVal c1 = some v1) (h2 : hexDigitVal c2 = some v2) :
    pyIntFromList hexDigitVal 16 [c1, c2] = some ((16 * v1 + v2 : Nat) : Int) := by
  obtain ⟨hs1, hp1, hm1, hu1, -⟩ := hexDigitChar_facts h1
  obtain ⟨hs2, hp2, hm2, hu2, -⟩ := hexDigitChar_facts h2
  have hstrip : pyStripList [c1, c2] = [c1, c2] := by
    refine pyStripList_nonspace ?_
    intro c hc
    simp only [List.mem_cons, List.not_mem_nil, or_false] at hc
    rcases hc with rfl | rfl
    · exact hs1
    · exact hs2
  unfold pyIntFromList
  rw [hstrip]
  simp only [pyIntCore, if_neg hp1, if_neg hm1, parseDigits, h1,
    parseDigitsGo, if_neg hu2, h2, Option.map_some]
  norm_num [Nat.mul_comm]

/-- The hex branch on `#` plus six hexadecimal digits yields the
byte-pair values. -/
theorem hexBranch_digits {b1 b2 b3 b4 b5 b6 : Char} {v1 v2 v3 v4 v5 v6 : Nat}
    (h1 : hexDigitVal b1 = some v1) (h2 : hexDigitVal b2 = some v2)
    (h3 : hexDigitVal b3 = some v3) (h4 : hexDigitVal b4 = some v4)
    (h5 : hexDigitVal b5 = some v5) (h6 : hexDigitVal b6 = some v6) :
    hexBranch ['#', b1, b2, b3, b4, b5, b6] =
      some ⟨((16 * v1 + v2 : Nat) : Int), ((16 * v3 + v4 : Nat) : Int),
            ((16 * v5 + v6 : Nat) : Int)⟩ := by
  obtain ⟨-, -, -, -, hv1⟩ := hexDigitChar_facts h1
  obtain ⟨-, -, -, -, hv2⟩ := hexDigitChar_facts h2
  obtain ⟨-, -, -, -, hv3⟩ := hexDigitChar_facts h3
  obtain ⟨-, -, -, -, hv4⟩ := hexDigitChar_facts h4
  obtain ⟨-, -, -, -, hv5⟩ := hexDigitChar_facts h5
  obtain ⟨-, -, -, -, hv6⟩ := hexDigitChar_facts h6
  unfold hexBranch
  rw [if_pos ⟨rfl, rfl⟩]
  have e1 : pyIntFromList hexDigitVal 16 (slice ['#', b1, b2, b3, b4, b5, b6] 1 3)
      = some ((16 * v1 + v2 : Nat) : Int) := pyInt_two_hex h1 h2
  have e2 : pyIntFromList hexDigitVal 16 (slice ['#', b1, b2, b3, b4, b5, b6] 3 5)
      = some ((16 * v3 + v4 : Nat) : Int) := pyInt_two_hex h3 h4
  have e3 : pyIntFromList hexDigitVal 16 (slice ['#', b1, b2, b3, b4, b5, b6] 5 7)
      = some ((16 * v5 + v6 : Nat) : Int) := pyInt_two_hex h5 h6
  simp only [e1, e2, e3]
  rw [if_pos]
  refine ⟨by positivity, by push_cast; omega, by positivity, by push_cast; omega,
    by positivity, by push_cast; omega⟩

/-- The named-palette lookup misses every `#`-headed string. -/
theorem namedLookup_hash (l : List Char) : namedLookup ('#' :: l) = none := rfl

/-- The named-palette lookup misses every `rgb(`-headed string. -/
theorem namedLookup_rgbParen (l : List Char) :
    namedLookup ('r' :: 'g' :: 'b' :: '(' :: l) = none := rfl

end Padbound

namespace Padbound

/-- `from_string` on `#` plus six hexadecimal digits (after lowering and
stripping): the hex branch wins. -/
theorem fromChars_hex {b1 b2 b3 b4 b5 b6 : Char} {v1 v2 v3 v4 v5 v6 : Nat}
    (h1 : hexDigitVal b1 = some v1) (h2 : hexDigitVal b2 = some v2)
    (h3 : hexDigitVal b3 = some v3) (h4 : hexDigitVal b4 = some v4)
    (h5 : hexDigitVal b5 = some v5) (h6 : hexDigitVal b6 = some v6) :
    fromChars ['#', b1, b2, b3, b4, b5, b6] =
      ⟨((16 * v1 + v2 : Nat) : Int), ((16 * v3 + v4 : Nat) : Int),
       ((16 * v5 + v6 : Nat) : Int)⟩ := by
  unfold fromChars
  rw [namedLookup_hash, hexBranch_digits h1 h2 h3 h4 h5 h6]

/-- The full `from_string` on a `#RRGGBB` string: lowering preserves the
digits' values, stripping is the identity, and the hex branch yields the
byte pairs. -/
theorem fromString_wellFormedHex (a1 a2 a3 a4 a5 a6 : Char)
    (v1 v2 v3 v4 v5 v6 : Nat)
    (h1 : hexDigitVal a1 = some v1) (h2 : hexDigitVal a2 = some v2)
    (h3 : hexDigitVal a3 = some v3) (h4 : hexDigitVal a4 = some v4)
    (h5 : hexDigitVal a5 = some v5) (h6 : hexDigitVal a6 = some v6) :
    fromString (String.mk ['#', a1, a2, a3, a4, a5, a6]) =
      ⟨((16 * v1 + v2 : Nat) : Int), ((16 * v3 + v4 : Nat) : Int),
       ((16 * v5 + v6 : Nat) : Int)⟩ := by
  have l1 := hexDigitVal_pyLowerChar h1
  have l2 := hexDigitVal_pyLowerChar h2
  have l3 := hexDigitVal_pyLowerChar h3
  have l4 := hexDigitVal_pyLowerChar h4
  have l5 := hexDigitVal_pyLowerChar h5
  have l6 := hexDigitVal_pyLowerChar h6
  unfold fromString
  have hmap : (String.mk ['#', a1, a2, a3, a4, a5, a6]).toList.map pyLowerChar
      = ['#', pyLowerChar a1, pyLowerChar a2, pyLowerChar a3,
         pyLowerChar a4, pyLowerChar a5, pyLowerChar a6] := by
    have hhash : pyLowerChar '#' = '#' := by decide
    simp [hhash]
  rw [hmap]
  have hstrip : pyStripList ['#', pyLowerChar a1, pyLowerChar a2,
      pyLowerChar a3, pyLowerChar a4, pyLowerChar a5, pyLowerChar a6]
      = ['#', pyLowerChar a1, pyLowerChar a2, pyLowerChar a3,
         pyLowerChar a4, pyLowerChar a5, pyLowerChar a6] := by
    refine pyStripList_nonspace ?_
    intro c hc
    simp only [List.mem_cons, List.not_mem_nil, or_false] at hc
    rcases hc with rfl | rfl | rfl | rfl | rfl | rfl | rfl
    · decide
    · exact (hexDigitChar_facts l1).1
    · exact (hexDigitChar_facts l2).1
    · exact (hexDigitChar_facts l3).1
    · exact (hexDigitChar_facts l4).1
    · exact (hexDigitChar_facts l5).1
    · exact (hexDigitChar_facts l6).1
  rw [hstrip]
  exact fromChars_hex l1 l2 l3 l4 l5 l6

end Padbound

namespace Padbound


theorem digits_lower_id {u : List Char} (h : allDecDigits u) :
    u.map pyLowerChar = u := by
  induction u with
  | nil => rfl
  | cons c rest ih =>
    obtain ⟨v, hv⟩ := Option.isSome_iff_exists.mp (h c (List.mem_cons_self c rest))
    rw [List.map_cons, (decDigitChar_facts hv).1,
        ih (fun c' hc' => h c' (List.mem_cons_of_mem c hc'))]

theorem digits_nonspace {u : List Char} (h : allDecDigits u) :
    ∀ c ∈ u, pyIsSpace c = false := by
  intro c hc
  obtain ⟨v, hv⟩ := Option.isSome_iff_exists.mp (h c hc)
  exact (decDigitChar_facts hv).2.1

theorem digits_nocomma {u : List Char} (h : allDecDigits u) :
    ∀ c ∈ u, c ≠ ',' := by
  intro c hc
  obtain ⟨v, hv⟩ := Option.isSome_iff_exists.mp (h c hc)
  exact (decDigitChar_facts hv).2.2.1

/-- `split(",")` of a comma-free string is one piece. -/
theorem splitOnComma_nocomma {u : List Char} (h : ∀ c ∈ u, c ≠ ',') :
    splitOnComma u = [u] := by
  induction u with
  | nil => rfl
  | cons c rest ih =>
    unfold splitOnComma
    rw [if_neg (h c (List.mem_cons_self c rest)),
        ih (fun c' hc' => h c' (List.mem_cons_of_mem c hc'))]

/-- `split(",")` peels one comma-free piece off the front. -/
theorem splitOnComma_append {u : List Char} (rest : List Char)
    (h : ∀ c ∈ u, c ≠ ',') :
    splitOnComma (u ++ ',' :: rest) = u :: splitOnComma rest := by
  induction u with
  | nil =>
    simp only [List.nil_append, splitOnComma, if_pos rfl]
    simp
  | cons c u' ih =>
    simp only [List.cons_append, splitOnComma]
    rw [if_neg (h c (List.mem_cons_self c u'))]
    have ih' : splitOnComma (u'.append (',' :: rest)) = u' :: splitOnComma rest :=
      ih (fun c' hc' => h c' (List.mem_cons_of_mem c hc'))
    rw [ih']

/-- `int(v.strip())` on a nonempty run of decimal digits. -/
theorem pyInt_digits {u : List Char} {nu : Nat} (hne : u ≠ [])
    (hall : allDecDigits u)
    (hp : parseDigits decDigitVal 10 u = some nu) :
    pyIntFromList decDigitVal 10 u = some (nu : Int) := by
  obtain ⟨c, rest, rfl⟩ := List.exists_cons_of_ne_nil hne
  obtain ⟨v, hv⟩ := Option.isSome_iff_exists.mp
    (hall c (List.mem_cons_self c rest))
  obtain ⟨-, -, -, hplus, hminus, -, -⟩ := decDigitChar_facts hv
  unfold pyIntFromList
  rw [pyStripList_nonspace (digits_nonspace hall)]
  simp only [pyIntCore, if_neg hplus, if_neg hminus, hp]
  rfl

/-- `max(0, min(255, int(v.strip())))` on a nonempty run of decimal
digits. -/
theorem clampParse_digits {u : List Char} {nu : Nat} (hne : u ≠ [])
    (hall : allDecDigits u)
    (hp : parseDigits decDigitVal 10 u = some nu) :
    clampParse u = some (max 0 (min 255 (nu : Int))) := by
  unfold clampParse
  rw [pyInt_digits hne hall hp]
  rfl

/-- The hex branch rejects every `rgb(`-headed string. -/
theorem hexBranch_rgbhead (l : List Char) : hexBranch ('r' :: l) = none := rfl

end Padbound

namespace Padbound

/-- The rgb branch on a canonical `rgb(u,v,w)` built from three nonempty
digit runs: each component is parsed and clamped to `0..255`. -/
theorem rgbBranch_canonical {u v w : List Char} {nu nv nw : Nat}
    (hu : u ≠ []) (hau : allDecDigits u)
    (hpu : parseDigits decDigitVal 10 u = some nu)
    (hv : v ≠ []) (hav : allDecDigits v)
    (hpv : parseDigits decDigitVal 10 v = some nv)
    (hw : w ≠ []) (haw : allDecDigits w)
    (hpw : parseDigits decDigitVal 10 w = some nw) :
    rgbBranch ('r' :: 'g' :: 'b' :: '(' ::
        ((u ++ ',' :: (v ++ ',' :: w)) ++ [')'])) =
      some ⟨max 0 (min 255 (nu : Int)), max 0 (min 255 (nv : Int)),
            max 0 (min 255 (nw : Int))⟩ := by
  unfold rgbBranch
  rw [if_pos ⟨rfl, List.getLast?_concat
    ('r' :: 'g' :: 'b' :: '(' :: (u ++ ',' :: (v ++ ',' :: w)))⟩]
  have hlen5 : ('r' :: 'g' :: 'b' :: '(' ::
      ((u ++ ',' :: (v ++ ',' :: w)) ++ [')'])).length - 5 =
      (u ++ ',' :: (v ++ ',' :: w)).length := by
    simp [List.length_append]
    omega
  rw [hlen5]
  have hinner : (('r' :: 'g' :: 'b' :: '(' ::
      ((u ++ ',' :: (v ++ ',' :: w)) ++ [')'])).drop 4).take
        (u ++ ',' :: (v ++ ',' :: w)).length = u ++ ',' :: (v ++ ',' :: w) :=
    List.take_left (u ++ ',' :: (v ++ ',' :: w)) [')']
  rw [hinner]
  rw [splitOnComma_append _ (digits_nocomma hau),
      splitOnComma_append _ (digits_nocomma hav),
      splitOnComma_nocomma (digits_nocomma haw)]
  simp only [parseComponents, clampParse_digits hu hau hpu,
    clampParse_digits hv hav hpv, clampParse_digits hw haw hpw]

/-- `from_string` (after lowering and stripping) on a canonical
`rgb(u,v,w)`: the rgb branch wins. -/
theorem fromChars_rgb {u v w : List Char} {nu nv nw : Nat}
    (hu : u ≠ []) (hau : allDecDigits u)
    (hpu : parseDigits decDigitVal 10 u = some nu)
    (hv : v ≠ []) (hav : allDecDigits v)
    (hpv : parseDigits decDigitVal 10 v = some nv)
    (hw : w ≠ []) (haw : allDecDigits w)
    (hpw : parseDigits decDigitVal 10 w = some nw) :
    fromChars ('r' :: 'g' :: 'b' :: '(' ::
        ((u ++ ',' :: (v ++ ',' :: w)) ++ [')'])) =
      ⟨max 0 (min 255 (nu : Int)), max 0 (min 255 (nv : Int)),
       max 0 (min 255 (nw : Int))⟩ := by
  unfold fromChars
  rw [namedLookup_rgbParen, hexBranch_rgbhead,
      rgbBranch_canonical hu hau hpu hv hav hpv hw haw hpw]

end Padbound

namespace Padbound

/-- The full `from_string` on a canonical `rgb(u,v,w)` of digit runs:
lowering and stripping are the identity on it, and the rgb branch clamps
each component. -/
theorem fromString_canonicalRgb (u v w : List Char) (nu nv nw : Nat)
    (hu : u ≠ []) (hau : allDecDigits u)
    (hpu : parseDigits decDigitVal 10 u = some nu)
    (hv : v ≠ []) (hav : allDecDigits v)
    (hpv : parseDigits decDigitVal 10 v = some nv)
    (hw : w ≠ []) (haw : allDecDigits w)
    (hpw : parseDigits decDigitVal 10 w = some nw) :
    fromString (String.mk ('r' :: 'g' :: 'b' :: '(' ::
        ((u ++ ',' :: (v ++ ',' :: w)) ++ [')']))) =
      ⟨max 0 (min 255 (nu : Int)), max 0 (min 255 (nv : Int)),
       max 0 (min 255 (nw : Int))⟩ := by
  unfold fromString
  have hr : pyLowerChar 'r' = 'r' := by decide
  have hg : pyLowerChar 'g' = 'g' := by decide
  have hb : pyLowerChar 'b' = 'b' := by decide
  have hop : pyLowerChar '(' = '(' := by decide
  have hcl : pyLowerChar ')' = ')' := by decide
  have hcm : pyLowerChar ',' = ',' := by decide
  have hmap : (String.mk ('r' :: 'g' :: 'b' :: '(' ::
      ((u ++ ',' :: (v ++ ',' :: w)) ++ [')']))).toList.map pyLowerChar =
      'r' :: 'g' :: 'b' :: '(' :: ((u ++ ',' :: (v ++ ',' :: w)) ++ [')']) := by
    simp only [String.toList, List.map_cons, List.map_append,
      digits_lower_id hau, digits_lower_id hav, digits_lower_id haw,
      List.map_nil, hr, hg, hb, hop, hcl, hcm]
  rw [hmap]
  have hstrip : pyStripList ('r' :: 'g' :: 'b' :: '(' ::
      ((u ++ ',' :: (v ++ ',' :: w)) ++ [')'])) =
      'r' :: 'g' :: 'b' :: '(' :: ((u ++ ',' :: (v ++ ',' :: w)) ++ [')']) := by
    refine pyStripList_nonspace ?_
    intro c hc
    simp only [List.mem_cons, List.mem_append, List.not_mem_nil,
      or_false] at hc
    rcases hc with rfl | rfl | rfl | rfl | (hcu | rfl | hcv | rfl | hcw) | rfl
    · decide
    · decide
    · decide
    · decide
    · exact digits_nonspace hau c hcu
    · decide
    · exact digits_nonspace hav c hcv
    · decide
    · exact digits_nonspace haw c hcw
    · decide
  rw [hstrip]
  exact fromChars_rgb hu hau hpu hv hav hpv hw haw hpw

/-- `from_string` falls back to white when the named lookup and both
parse branches reject the lowered, stripped input. -/
theorem fromString_fallback_white (s : String)
    (hn : namedLookup (pyStripList (s.toList.map pyLowerChar)) = none)
    (hh : hexBranch (pyStripList (s.toList.map pyLowerChar)) = none)
    (hr : rgbBranch (pyStripList (s.toList.map pyLowerChar)) = none) :
    fromString s = ⟨255, 255, 255⟩ := by
  unfold fromString fromChars
  rw [hn, hh, hr]

end Padbound

namespace Padbound

/-! ### Theorems for claim C7 -/

/-- **C7** (counterexample). The string `"# 1 2 3"` is not a palette
name, not a well-formed `#RRGGBB` hex string, and not an `rgb(r,g,b)`
string — yet `from_string` returns `(1, 2, 3)`, not the white fallback:
the hex branch parses each two-character slice with Python `int(·, 16)`,
which accepts a leading space, so `" 1"`, `" 2"`, `" 3"` parse to 1, 2, 3.
The claim's "every other string yields the white fallback" is false. -/
theorem fromString_white_fallback_counterexample :
    fromString "# 1 2 3" = ⟨1, 2, 3⟩ ∧
    (⟨1, 2, 3⟩ : RGBColor) ≠ ⟨255, 255, 255⟩ ∧
    (namedColors.all (fun p => decide (p.1 ≠ "# 1 2 3"))) = true ∧
    specWellFormedHex "# 1 2 3" = false ∧
    specCanonicalRgb "# 1 2 3" = false := by
  refine ⟨by decide, by decide, by decide, by decide, by decide⟩

/-- **C7** (amended). `RGBColor.from_string` never raises (it is total:
every exception path of the source is caught): (1) every named palette
member parses to its RGB triple; (2) every well-formed `#RRGGBB` string —
`#` followed by six hex digits, upper or lower case — parses to its byte
pairs; (3) every `rgb(u,v,w)` string with nonempty decimal-digit-run
components parses to the components clamped to `[0, 255]`; and (4) a
string that the named lookup, the hex branch and the rgb branch all
reject yields the white fallback `(255, 255, 255)`. (Unlike the original
claim, a string outside the three canonical forms need *not* fall back
to white, because the branches accept all of Python `int`'s liberal
syntax — see the counterexample.) -/
theorem fromString_amended :
    (namedColors.all (fun p =>
        decide (fromString p.1 = ⟨p.2.1, p.2.2.1, p.2.2.2⟩)) = true) ∧
    (∀ a1 a2 a3 a4 a5 a6 : Char, ∀ v1 v2 v3 v4 v5 v6 : Nat,
      hexDigitVal a1 = some v1 → hexDigitVal a2 = some v2 →
      hexDigitVal a3 = some v3 → hexDigitVal a4 = some v4 →
      hexDigitVal a5 = some v5 → hexDigitVal a6 = some v6 →
      fromString (String.mk ['#', a1, a2, a3, a4, a5, a6]) =
        ⟨((16 * v1 + v2 : Nat) : Int), ((16 * v3 + v4 : Nat) : Int),
         ((16 * v5 + v6 : Nat) : Int)⟩) ∧
    (∀ u v w : List Char, ∀ nu nv nw : Nat,
      u ≠ [] → allDecDigits u → parseDigits decDigitVal 10 u = some nu →
      v ≠ [] → allDecDigits v → parseDigits decDigitVal 10 v = some nv →
      w ≠ [] → allDecDigits w → parseDigits decDigitVal 10 w = some nw →
      fromString (String.mk ('r' :: 'g' :: 'b' :: '(' ::
          ((u ++ ',' :: (v ++ ',' :: w)) ++ [')']))) =
        ⟨max 0 (min 255 (nu : Int)), max 0 (min 255 (nv : Int)),
         max 0 (min 255 (nw : Int))⟩) ∧
    (∀ s : String,
      namedLookup (pyStripList (s.toList.map pyLowerChar)) = none →
      hexBranch (pyStripList (s.toList.map pyLowerChar)) = none →
      rgbBranch (pyStripList (s.toList.map pyLowerChar)) = none →
      fromString s = ⟨255, 255, 255⟩) := by
  refine ⟨by decide, ?_, ?_, ?_⟩
  · intro a1 a2 a3 a4 a5 a6 v1 v2 v3 v4 v5 v6 h1 h2 h3 h4 h5 h6
    exact fromString_wellFormedHex a1 a2 a3 a4 a5 a6 v1 v2 v3 v4 v5 v6
      h1 h2 h3 h4 h5 h6
  · intro u v w nu nv nw hu hau hpu hv hav hpv hw haw hpw
    exact fromString_canonicalRgb u v w nu nv nw hu hau hpu hv hav hpv hw haw hpw
  · intro s hn hh hr
    exact fromString_fallback_white s hn hh hr

/-- Witness for the amended C7: `"#0a141e"` parses to `(10, 20, 30)`,
`"rgb(10,300,2)"` parses to the clamped `(10, 255, 2)`, and `"hello"`
falls back to white. -/
theorem fromString_amended_witness :
    fromString (String.mk ['#', '0', 'a', '1', '4', '1', 'e']) =
      ⟨((16 * 0 + 10 : Nat) : Int), ((16 * 1 + 4 : Nat) : Int),
       ((16 * 1 + 14 : Nat) : Int)⟩ ∧
    fromString (String.mk ('r' :: 'g' :: 'b' :: '(' ::
        ((['1', '0'] ++ ',' :: (['3', '0', '0'] ++ ',' :: ['2'])) ++ [')']))) =
      ⟨max 0 (min 255 ((10 : Nat) : Int)), max 0 (min 255 ((300 : Nat) : Int)),
       max 0 (min 255 ((2 : Nat) : Int))⟩ ∧
    fromString "hello" = ⟨255, 255, 255⟩ := by
  refine ⟨?_, ?_, ?_⟩
  · exact fromString_amended.2.1 '0' 'a' '1' '4' '1' 'e' 0 10 1 4 1 14
      rfl rfl rfl rfl rfl rfl
  · exact fromString_amended.2.2.1 ['1', '0'] ['3', '0', '0'] ['2'] 10 300 2
      (by decide) (by unfold allDecDigits; decide) (by decide)
      (by decide) (by unfold allDecDigits; decide) (by decide)
      (by decide) (by unfold allDecDigits; decide) (by decide)
  · exact fromString_amended.2.2.2 "hello" rfl rfl rfl

end Padbound
